import Mathlib

/-!
Verification of the course-assistant bot (Telegram front-end in `src/main.py`,
session state in `src/models/state.py` / `src/utils/state.py`, input
validation in `src/utils/validators.py`, moderation in
`src/services/content_moderator.py`, LLM glue in `src/services/llm_service.py`
and the vector index in `src/semantic_search.py`).

The Python code is shallowly embedded: every handler becomes a pure Lean
function from the session state, the incoming message and an oracle of
external responses (LLM replies, database contents, commit success) to the
new session state plus a list of observable effects (replies sent, external
capabilities invoked).  Python strings are modelled as Lean `String`
(operating on the underlying `List Char`, which matches Python's
code-point indexing); Python `None` becomes `Option.none`; boolean flags
that Python sometimes sets to `None` are modelled as `false`, since every
read of those keys is a truthiness test.
-/

namespace CourseAssistant

/-! ## Python string primitives (code-point level) -/

/-- ASCII decimal digit test, as used by `int()` on ordinary numerals. -/
def isAsciiDigit (c : Char) : Bool := 48 ≤ c.toNat && c.toNat ≤ 57

/-- Whitespace as stripped by Python `str.strip()` (the ASCII cases). -/
def isPyWS (c : Char) : Bool :=
  c = ' ' || c = '\t' || c = '\n' || c = '\x0d' || c = '\x0b' || c = '\x0c'

/-- `str.strip()` on a list of code points. -/
def stripL (cs : List Char) : List Char :=
  ((cs.dropWhile isPyWS).reverse.dropWhile isPyWS).reverse

/-- `str.strip()`. -/
def pyStrip (s : String) : String := ⟨stripL s.data⟩

/-- Lower-casing of one code point: ASCII letters plus the accented Latin
capitals that occur in the bot texts (Python `str.lower` covers all of
Unicode; only these letters ever appear in the embedded tables). -/
def pyLowerChar (c : Char) : Char :=
  if 65 ≤ c.toNat && c.toNat ≤ 90 then Char.ofNat (c.toNat + 32)
  else if c = 'Á' then 'á' else if c = 'É' then 'é'
  else if c = 'Í' then 'í' else if c = 'Ó' then 'ó'
  else if c = 'Ú' then 'ú' else if c = 'Ñ' then 'ñ'
  else if c = 'Ü' then 'ü' else c

/-- Upper-casing of one code point, same coverage as `pyLowerChar`. -/
def pyUpperChar (c : Char) : Char :=
  if 97 ≤ c.toNat && c.toNat ≤ 122 then Char.ofNat (c.toNat - 32)
  else if c = 'á' then 'Á' else if c = 'é' then 'É'
  else if c = 'í' then 'Í' else if c = 'ó' then 'Ó'
  else if c = 'ú' then 'Ú' else if c = 'ñ' then 'Ñ'
  else if c = 'ü' then 'Ü' else c

/-- `str.lower()`. -/
def pyLower (s : String) : String := ⟨s.data.map pyLowerChar⟩

/-- `str.upper()`. -/
def pyUpper (s : String) : String := ⟨s.data.map pyUpperChar⟩

/-- `needle in hay` for strings (substring containment). -/
def containsSub : List Char → List Char → Bool
  | _, [] => true
  | [], _ :: _ => false
  | c :: cs, n :: ns => (List.isPrefixOf (n :: ns) (c :: cs)) || containsSub cs (n :: ns)

/-- `hay.find(needle) >= 0`, on `String`. -/
def pyContains (hay needle : String) : Bool := containsSub hay.data needle.data

/-- `s.split(sep, 1)` restricted to a one-character separator: returns the
parts before and after the first occurrence, or `none` when the separator
does not occur (in which case Python returns a one-element list and an
index `[1]` access raises `IndexError`). -/
def splitOnce : List Char → Char → Option (List Char × List Char)
  | [], _ => none
  | c :: cs, sep =>
    if c = sep then some ([], cs)
    else (splitOnce cs sep).map (fun p => (c :: p.1, p.2))

/-- Base code points of the Unicode `Nd` decimal-digit runs; every run is
the ten consecutive code points with digit values 0-9.  This is the table
of Unicode 14.0, the database shipped with CPython 3.11; Python `int()`
accepts exactly the characters of these runs as digits. -/
def ndBases : List Nat :=
  [0x30, 0x660, 0x6F0, 0x7C0, 0x966, 0x9E6, 0xA66, 0xAE6, 0xB66, 0xBE6,
   0xC66, 0xCE6, 0xD66, 0xDE6, 0xE50, 0xED0, 0xF20, 0x1040, 0x1090, 0x17E0,
   0x1810, 0x1946, 0x19D0, 0x1A80, 0x1A90, 0x1B50, 0x1BB0, 0x1C40, 0x1C50,
   0xA620, 0xA8D0, 0xA900, 0xA9D0, 0xA9F0, 0xAA50, 0xABF0, 0xFF10,
   0x104A0, 0x10D30, 0x11066, 0x110F0, 0x11136, 0x111D0, 0x112F0, 0x11450,
   0x114D0, 0x11650, 0x116C0, 0x11730, 0x118E0, 0x11950, 0x11C50, 0x11D50,
   0x11DA0, 0x16A60, 0x16AC0, 0x16B50, 0x1D7CE, 0x1D7D8, 0x1D7E2, 0x1D7EC,
   0x1D7F6, 0x1E140, 0x1E2F0, 0x1E950, 0x1FBF0]

/-- Scan the `Nd` runs for the one containing code point `n`. -/
def decDigitValAux : List Nat → Nat → Option Nat
  | [], _ => none
  | b :: bs, n => if b ≤ n ∧ n ≤ b + 9 then some (n - b) else decDigitValAux bs n

/-- The decimal digit value of a code point, or `none` when it is not a
Unicode decimal digit.  This is the per-character digit test of Python
`int()`. -/
def decDigitVal? (c : Char) : Option Nat := decDigitValAux ndBases c.toNat

/-- Value of a non-empty numeral of Unicode decimal digits, accumulated
left to right; `none` on any non-digit.  This is the digit-consuming core
of Python `int()`. -/
def digitsValAux : List Char → Nat → Option Nat
  | [], a => some a
  | c :: cs, a =>
    match decDigitVal? c with
    | some d => digitsValAux cs (a * 10 + d)
    | none => none

/-- `digitsValAux` on a non-empty numeral starting from 0. -/
def digitsVal? (cs : List Char) : Option Nat :=
  if cs = [] then none else digitsValAux cs 0

/-- Python `int(s)` on code points: surrounding whitespace is stripped, an
optional single sign is accepted, and the rest must be a non-empty string
of Unicode decimal digits; otherwise `ValueError` (`none`).  Two
deliberate approximations, neither of which changes `validate_ciclo`
below on any input: the stripped whitespace set is the ASCII one (a
non-ASCII space is then treated as a non-digit, so both sides reject: a
whitespace code point occupying one of the four year positions leaves at
most three digits, whose value is below 2000, and a lone whitespace
character is no numeral); and digit-group underscores are not modelled
(an underscore is legal only between digits, so a 4-character slice
containing one has at most three digits — again below 2000 either way —
and a single character cannot contain one). -/
def pyInt? (cs0 : List Char) : Option Int :=
  if (stripL cs0).head? = some '+' then (digitsVal? (stripL cs0).tail).map Int.ofNat
  else if (stripL cs0).head? = some '-' then
    (digitsVal? (stripL cs0).tail).map (fun n => -(n : Int))
  else (digitsVal? (stripL cs0)).map Int.ofNat

/-- `"{}"`-placeholder formatting: `template.format(*args)`, each `\x7b\x7d`
pair consumed in order. -/
def pyFormatL : List Char → List String → List Char
  | [], _ => []
  | '\x7b' :: '\x7d' :: rest, a :: args => a.data ++ pyFormatL rest args
  | c :: rest, args => c :: pyFormatL rest args

/-- `template.format(args...)`. -/
def pyFormat (template : String) (args : List String) : String :=
  ⟨pyFormatL template.data args⟩

/-- Python truthiness of an optional string (`None` and `""` are falsy). -/
def optTruthy : Option String → Bool
  | none => false
  | some s => s ≠ ""

/-- `str(x)` for an optional string, as interpolated by `format` (Python
prints `None` for a missing value). -/
def optStr : Option String → String
  | none => "None"
  | some s => s

/-! ## `validate_ciclo` (src/utils/validators.py lines 3-12, duplicated at
src/main.py lines 188-197) -/

/-- `validate_ciclo(ciclo)`: length must be 5, `int(ciclo[:4])` must land in
`[2000, 2100]` and `int(ciclo[4])` must be 1 or 2; a `ValueError` from
either conversion yields `False`. -/
def validate_ciclo (ciclo : String) : Bool :=
  if ciclo.data.length ≠ 5 then false
  else
    match pyInt? (ciclo.data.take 4), pyInt? (ciclo.data.drop 4) with
    | some year, some semester =>
      decide (2000 ≤ year) && decide (year ≤ 2100) && (semester == 1 || semester == 2)
    | _, _ => false

/-- The claim's characterisation of the accepted cycle strings, reading
"digit" as the ASCII digits `0`-`9`: four such digits forming a year in
`[2000, 2100]`, then the character `1` or `2`.  The validator accepts
more (see the counterexample). -/
def cicloFormat (s : String) : Bool :=
  match s.data with
  | [a, b, c, d, e] =>
    [a, b, c, d].all isAsciiDigit &&
      (let y := (((a.toNat - 48) * 10 + (b.toNat - 48)) * 10 + (c.toNat - 48)) * 10
                  + (d.toNat - 48)
       decide (2000 ≤ y) && decide (y ≤ 2100)) &&
      (e == '1' || e == '2')
  | _ => false

/-- The corrected characterisation: five Unicode decimal digits, the first
four forming (by decimal value, in any scripts) a year in `[2000, 2100]`
and the fifth having digit value 1 or 2. -/
def cicloFormatU (s : String) : Bool :=
  match s.data with
  | [a, b, c, d, e] =>
    (decDigitVal? a).isSome && (decDigitVal? b).isSome && (decDigitVal? c).isSome &&
      (decDigitVal? d).isSome && (decDigitVal? e).isSome &&
      (let y := (decDigitVal? a).getD 0 * 1000 + (decDigitVal? b).getD 0 * 100 +
          (decDigitVal? c).getD 0 * 10 + (decDigitVal? d).getD 0
       decide (2000 ≤ y) && decide (y ≤ 2100)) &&
      ((decDigitVal? e).getD 0 == 1 || (decDigitVal? e).getD 0 == 2)
  | _ => false

/-- `s.startswith(pre)`. -/
def pyStartsWith (s pre : String) : Bool := List.isPrefixOf pre.data s.data

/-! ## Moderation gate (src/services/content_moderator.py lines 11-54; the
same logic is duplicated at src/main.py lines 1000-1043).

The LLM response is the oracle input: `none` models any failure to obtain a
response (the `except` branch); `some s` a reply with content `s`. -/

/-- The fixed warning text built when a message is flagged, with the parsed
reason interpolated. -/
def moderationWarning (reason : String) : String :=
  "⚠️ ADVERTENCIA: Tu mensaje ha sido detectado como inapropiado.\n\nRazón: "
    ++ reason
    ++ "\n\n🚫 Este tipo de contenido está estrictamente prohibido y será reportado inmediatamente a las autoridades universitarias.\n\n⚠️ Consecuencias:\n- Reporte inmediato a la universidad\n- Posible expulsión del curso\n- Proceso disciplinario\n\nPor favor, mantén un ambiente respetuoso y profesional en todas tus interacciones."

/-- `ContentModerator.detect_inappropriate_content`: strips the LLM reply;
a reply starting with `INAPPROPRIATE` is split on the first `:` for the
reason (a missing `:` raises `IndexError`, landing in the fail-open
`except` branch); anything else, or any failure, yields `(True, "")`. -/
def detect_inappropriate_content (resp : Option String) : Bool × String :=
  match resp with
  | none => (true, "")
  | some content =>
    let result := pyStrip content
    if pyStartsWith result "INAPPROPRIATE" then
      match splitOnce result.data ':' with
      | some p => (false, moderationWarning (pyStrip ⟨p.2⟩))
      | none => (true, "")
    else (true, "")

/-! ## Content Index (src/semantic_search.py).

Embeddings are abstracted: a `search` call is parameterised by the map
`dist : Nat → ℚ` giving the (non-negative) L2 distance between the query
embedding and the vector at each index position, and the faiss
`IndexFlatL2.search` call is modelled as returning the `k` index positions
of smallest distance, in non-decreasing distance order. -/

/-- A Python metadata dict, as an ordered key/value list. -/
abbrev MetaDict := List (String × String)

/-- The mutable fields of a `SemanticSearch` object: whether `self.index`
is non-`None`, the number of vectors added to it (`ntotal`), and the
parallel `texts` / `metadata` lists. -/
structure SemanticSearch where
  indexExists : Bool
  indexSize : Nat
  texts : List String
  metadata : List MetaDict
deriving DecidableEq

/-- `SemanticSearch.__init__`: no index, empty stores. -/
def SemanticSearch.init : SemanticSearch :=
  { indexExists := false, indexSize := 0, texts := [], metadata := [] }

/-- `SemanticSearch.clear`: `self.index = None; self.texts = []; self.metadata = []`. -/
def SemanticSearch.clear (_ : SemanticSearch) : SemanticSearch := SemanticSearch.init

/-- `SemanticSearch.add_texts`: creates the index if absent, appends one
vector per text to it, extends `texts`, and extends `metadata` either by
the given list (when truthy, i.e. non-empty) or by one empty dict per text. -/
def SemanticSearch.add_texts (s : SemanticSearch) (texts : List String)
    (metadata : List MetaDict) : SemanticSearch :=
  { indexExists := true
    indexSize := s.indexSize + texts.length
    texts := s.texts ++ texts
    metadata := s.metadata ++
      (if metadata.isEmpty then texts.map (fun _ => ([] : MetaDict)) else metadata) }

/-- `SemanticSearch.search(query, k)`: returns `[]` when the index is
`None` or no text is stored; otherwise clamps `k` to `len(texts)`, asks
faiss for that many nearest vectors (modelled by sorting index positions by
distance), and collects `(text, metadata, 1/(1+distance))` triples for each
returned position below `len(texts)`.  An out-of-range `metadata[idx]`
access raises `IndexError`, which the surrounding `except` turns into `[]`. -/
def SemanticSearch.search (s : SemanticSearch) (dist : Nat → ℚ) (k : Nat) :
    List (String × MetaDict × ℚ) :=
  if !s.indexExists || s.texts.length == 0 then []
  else
    let k1 := min k s.texts.length
    let taken := (List.insertionSort (fun i j => dist i ≤ dist j)
      (List.range s.indexSize)).take k1
    if taken.all (fun idx => idx < s.metadata.length) then
      taken.filterMap (fun idx =>
        if idx < s.texts.length then
          some (s.texts.getD idx "", s.metadata.getD idx [], 1 / (1 + dist idx))
        else none)
    else []

/-- One call against the Content Index: `clear()` or `add_texts(...)`. -/
inductive SemOp where
  | clearOp : SemOp
  | addOp (texts : List String) (metadata : List MetaDict) : SemOp

/-- Run one index call. -/
def applySemOp (s : SemanticSearch) : SemOp → SemanticSearch
  | .clearOp => s.clear
  | .addOp t m => s.add_texts t m

/-- Run a sequence of index calls. -/
def applySemOps (s : SemanticSearch) (ops : List SemOp) : SemanticSearch :=
  ops.foldl applySemOp s

/-- An `add_texts` call is compliant when its metadata is absent/empty or
matches the texts in length. -/
def SemOp.compliant : SemOp → Prop
  | .clearOp => True
  | .addOp t m => m = [] ∨ m.length = t.length

/-- The alignment invariant: `len(texts) == len(metadata) == ntotal`. -/
def SemanticSearch.aligned (s : SemanticSearch) : Prop :=
  s.texts.length = s.metadata.length ∧ s.metadata.length = s.indexSize

/-! ## Session state (src/models/state.py) -/

/-- One history entry (a `{"role": ..., "content": ...}` dict). -/
structure ChatMsg where
  role : String
  content : String
deriving DecidableEq

/-- The per-user `State` TypedDict (src/models/state.py lines 3-27).
`section` is a Lean keyword, hence the trailing underscore.  Keys that
`reset_state` sets to Python `None` even though they are declared `bool`
are modelled as `false`, since every read of them is a truthiness test. -/
structure UserState where
  messages : List ChatMsg
  course : Option String
  section_ : Option String
  ciclo : Option String
  modulo : Option String
  waiting_for_course : Bool
  waiting_for_ciclo : Bool
  waiting_for_modulo : Bool
  waiting_for_section : Bool
  pending_course_confirmation : Option String
  language : Option String
  waiting_for_language : Bool
  updating_course : Bool
  update_step : Option String
  update_course : Option String
  update_content : Option String
  update_category : Option String
  update_ciclo : Option String
  update_modulo : Option String
  update_file_path : Option String
  temp_file_path : Option String
  can_return_to_menu : Bool
deriving DecidableEq

/-- `create_initial_state()` (src/models/state.py lines 28-53). -/
def create_initial_state : UserState :=
  { messages := [], course := none, section_ := none, ciclo := none, modulo := none,
    waiting_for_course := false, waiting_for_ciclo := false, waiting_for_modulo := false,
    waiting_for_section := false, pending_course_confirmation := none, language := none,
    waiting_for_language := true, updating_course := false, update_step := none,
    update_course := none, update_content := none, update_category := none,
    update_ciclo := none, update_modulo := none, update_file_path := none,
    temp_file_path := none, can_return_to_menu := true }

/-- `StateManager.reset_state` (src/utils/state.py lines 21-38): every key
in `keys_to_reset` is set to `None` (the two exempted boolean keys to
`False`), then `waiting_for_course` and `can_return_to_menu` are forced to
`True`.  `messages`, `language` and `waiting_for_language` are untouched. -/
def reset_state (s : UserState) : UserState :=
  { s with
    course := none
    section_ := none
    ciclo := none
    modulo := none
    waiting_for_course := true
    waiting_for_ciclo := false
    waiting_for_modulo := false
    waiting_for_section := false
    pending_course_confirmation := none
    updating_course := false
    update_step := none
    update_course := none
    update_content := none
    update_category := none
    update_ciclo := none
    update_modulo := none
    update_file_path := none
    temp_file_path := none
    can_return_to_menu := true }

/-! ## Translated message tables (src/main.py lines 78-186; the i18n module
holds an identical copy that is shadowed by this local definition).
Apostrophes and braces inside the texts are written with `\x27` / `\x7b` /
`\x7d` escapes. -/

/-- The keys of one language's message table. -/
structure Messages where
  welcome : String
  disclaimer : String
  course_selection : String
  ciclo_selection : String
  modulo_selection : String
  section_selection : String
  ready_for_query : String
  invalid_course : String
  invalid_ciclo : String
  invalid_modulo : String
  invalid_section : String
  error_processing : String
  update_usage : String
  update_fields : String
  update_success : String
  update_empty : String
  update_error : String
  course_changed : String
  please_start : String
  complete_info : String
  return_to_menu : String
  no_course_info : String
  course_info : String
  course_selected : String
  update_welcome : String
  enter_update_content : String
  content_received : String
  suggested_category : String
  confirm_category : String
  enter_category : String
  invalid_category : String
  update_summary : String
deriving DecidableEq

/-- The Spanish (`"es"`) message table. -/
def esMessages : Messages where
  welcome := "¡Bienvenido al asistente de cursos! 👋\n\n"
  disclaimer := "\n\n⚠️ Este es un asistente de IA entrenado con datos del curso. Por favor, verifica la información con tus profesores.\nPara cualquier consulta, contacta al profesor Carlos Adrian Alarcon: pciscala@upc.edu.pe"
  course_selection := "Por favor, selecciona un curso de la lista:\n\n(Escribe \x27menu\x27 para volver al menú principal)"
  ciclo_selection := "Por favor, ingresa el ciclo en formato YYYY1 o YYYY2 (ejemplo: 20241 para el primer semestre de 2024):\n\n(Escribe \x27menu\x27 para volver al menú principal)"
  modulo_selection := "Por favor, selecciona el módulo (A o B):\n\n(Escribe \x27menu\x27 para volver al menú principal)"
  section_selection := "Por favor, ingresa la sección del curso (ejemplo: G1, G2, etc.):\n\n(Escribe \x27menu\x27 para volver al menú principal)"
  ready_for_query := "¡Perfecto! Ahora puedes hacer preguntas sobre el curso.\n\n(Escribe \x27menu\x27 para volver al menú principal)"
  invalid_course := "Por favor, selecciona un curso válido de la lista.\n\n(Escribe \x27menu\x27 para volver al menú principal)"
  invalid_ciclo := "Por favor, ingresa un ciclo válido en formato YYYY1 o YYYY2 (ejemplo: 20241).\n\n(Escribe \x27menu\x27 para volver al menú principal)"
  invalid_modulo := "Por favor, selecciona un módulo válido (A o B).\n\n(Escribe \x27menu\x27 para volver al menú principal)"
  invalid_section := "La sección no puede estar vacía. Por favor, ingresa una sección válida.\n\n(Escribe \x27menu\x27 para volver al menú principal)"
  error_processing := "Lo siento, hubo un error al procesar tu mensaje. Por favor, intenta de nuevo.\n\n(Escribe \x27menu\x27 para volver al menú principal)"
  update_usage := "Uso: /update curso;sección;ciclo;módulo;categoría;actualización\n\n(Escribe \x27menu\x27 para volver al menú principal)"
  update_fields := "Por favor, proporciona todos los campos requeridos.\n\n(Escribe \x27menu\x27 para volver al menú principal)"
  update_success := "✅ Actualización guardada correctamente.\n\n(Escribe \x27menu\x27 para volver al menú principal)"
  update_empty := "❌ La actualización no puede estar vacía.\n\n(Escribe \x27menu\x27 para volver al menú principal)"
  update_error := "❌ Error al guardar la actualización: \x7b\x7d\n\n(Escribe \x27menu\x27 para volver al menú principal)"
  course_changed := "✅ Curso cambiado correctamente.\n\n(Escribe \x27menu\x27 para volver al menú principal)"
  please_start := "Por favor, usa el comando /start para comenzar."
  complete_info := "Por favor, completa la información del curso usando el comando /start."
  return_to_menu := "🔄 Volviendo al menú principal..."
  no_course_info := "No encontré información para el curso \x27\x7b\x7d\x27 en el ciclo \x7b\x7d y módulo \x7b\x7d.\n\n(Escribe \x27menu\x27 para volver al menú principal)"
  course_info := "Información del curso:\n            Nombre: \x7b\x7d\n            Sección: \x7b\x7d\n            Ciclo: \x7b\x7d\n            Módulo: \x7b\x7d\n            Categorías: \x7b\x7d\n            Última actualización: \x7b\x7d\n            Actualizaciones disponibles: \x7b\x7d\n            \n            Actualizaciones:\n            \x7b\x7d"
  course_selected := "✅ Curso seleccionado: \x7b\x7d"
  update_welcome := "👋 ¡Hola profesor! Bienvenido al sistema de actualización de cursos."
  enter_update_content := "Por favor, ingresa el contenido de la actualización o envía el documento que deseas subir."
  content_received := "📝 Contenido recibido"
  suggested_category := "Categoría sugerida: \x7b\x7d"
  confirm_category := "¿Deseas confirmar esta categoría? (sí/no)"
  enter_category := "Por favor, ingresa la categoría deseada (EVALUACIÓN, CLASE, TAREA, SÍLABO, CRONOGRAMA, GENERAL):"
  invalid_category := "❌ Categoría no válida. Por favor, selecciona una de las opciones disponibles."
  update_summary := "✅ ¡Actualización guardada exitosamente!\n\nResumen:\n- Curso: \x7b\x7d\n- Sección: \x7b\x7d\n- Categoría: \x7b\x7d\n- Ciclo: \x7b\x7d\n- Módulo: \x7b\x7d\n- Contenido: \x7b\x7d"

/-- The Quechua (`"qu"`) message table. -/
def quMessages : Messages where
  welcome := "¡Allin hamunayki yachay yanapaqman! 👋\n\n"
  disclaimer := "\n\n⚠️ Kayqa yachay wasimanta yachachisqa IA yanapakuqmi. Ama hina kaspa, yachachiqkunawan willakuyta chiqaqchay.\nIma tapukuypaqpas, yachachiq Carlos Adrian Alarconwan rimanakuy: pciscala@upc.edu.pe"
  course_selection := "Ama hina kaspa, huk yachayta akllay kay listamanta:\n\n(Qillqay \x27menu\x27 qallariy patamanman kutirinaykipaq)"
  ciclo_selection := "Ama hina kaspa, YYYY1 utaq YYYY2 formatupi cicloykita qillqay (ejemplopaq: 20241 ñawpaq semestrepaq 2024 watapi):\n\n(Qillqay \x27menu\x27 qallariy patamanman kutirinaykipaq)"
  modulo_selection := "Ama hina kaspa, akllay huk modulota (A utaq B):\n\n(Qillqay \x27menu\x27 qallariy patamanman kutirinaykipaq)"
  section_selection := "Ama hina kaspa, seccionniykita qillqay (ejemplopaq: G1, G2, hukniraq):\n\n(Qillqay \x27menu\x27 qallariy patamanman kutirinaykipaq)"
  ready_for_query := "¡Allinmi! Kunanqa yachaymanta tapukuyta atinki.\n\n(Qillqay \x27menu\x27 qallariy patamanman kutirinaykipaq)"
  invalid_course := "Ama hina kaspa, listamanta allin yachayta akllay.\n\n(Qillqay \x27menu\x27 qallariy patamanman kutirinaykipaq)"
  invalid_ciclo := "Ama hina kaspa, allin YYYY1 utaq YYYY2 formatupi cicloykita qillqay (ejemplopaq: 20241).\n\n(Qillqay \x27menu\x27 qallariy patamanman kutirinaykipaq)"
  invalid_modulo := "Ama hina kaspa, allin modulota akllay (A utaq B).\n\n(Qillqay \x27menu\x27 qallariy patamanman kutirinaykipaq)"
  invalid_section := "Seccionniyki mana ch\x27usaqchu kanan. Ama hina kaspa, allin seccionniykita qillqay.\n\n(Qillqay \x27menu\x27 qallariy patamanman kutirinaykipaq)"
  error_processing := "Pampachaway, willakuyniykita procesaypi pantay karqan. Ama hina kaspa, huktawan ruwapay.\n\n(Qillqay \x27menu\x27 qallariy patamanman kutirinaykipaq)"
  update_usage := "Llamk\x27apay: /update yachay;seccion;ciclo;modulo;categoria;musuqyachiy\n\n(Qillqay \x27menu\x27 qallariy patamanman kutirinaykipaq)"
  update_fields := "Ama hina kaspa, tukuy necesario kamachikkunata quy.\n\n(Qillqay \x27menu\x27 qallariy patamanman kutirinaykipaq)"
  update_success := "✅ Musuqyachiy allinta waqaychasqa.\n\n(Qillqay \x27menu\x27 qallariy patamanman kutirinaykipaq)"
  update_empty := "❌ Musuqyachiy mana ch\x27usaqchu kanan atin.\n\n(Qillqay \x27menu\x27 qallariy patamanman kutirinaykipaq)"
  update_error := "❌ Musuqyachiy waqaychaypi pantay: \x7b\x7d\n\n(Qillqay \x27menu\x27 qallariy patamanman kutirinaykipaq)"
  course_changed := "✅ Yachay allinta tikrasqa.\n\n(Qillqay \x27menu\x27 qallariy patamanman kutirinaykipaq)"
  please_start := "Ama hina kaspa, /start kamachita llamk\x27achiy qallarinaykipaq."
  complete_info := "Ama hina kaspa, /start kamachita llamk\x27achispa yachaymanta willakuyta hunt\x27achiy."
  return_to_menu := "🔄 Qallariy patamanman kutispa..."
  no_course_info := "Mana tarinichu willakuyta kay yachaypaq \x27\x7b\x7d\x27 kay ciclo \x7b\x7d kay modulo \x7b\x7dpi.\n\n(Qillqay \x27menu\x27 qallariy patamanman kutirinaykipaq)"
  course_info := "Yachaymanta willakuy:\n            Suti: \x7b\x7d\n            Seccion: \x7b\x7d\n            Ciclo: \x7b\x7d\n            Modulo: \x7b\x7d\n            Categorias: \x7b\x7d\n            Qhipa musuqyachiy: \x7b\x7d\n            Musuqyachiykuna tarisqa: \x7b\x7d\n            \n            Musuqyachiykuna:\n            \x7b\x7d"
  course_selected := "✅ Yachay akllasqa: \x7b\x7d"
  update_welcome := "👋 Allin hamunayki yachachiq! Yachaykuna musuqyachiy sistemaman."
  enter_update_content := "Ama hina kaspa, musuqyachiy willakuyta qillqay utaq documentota apachimuy."
  content_received := "📝 Willakuy chaskisqa"
  suggested_category := "Categoria ñisqa: \x7b\x7d"
  confirm_category := "¿Kay categoriataq allinchu? (arí/mana)"
  enter_category := "Ama hina kaspa, munasqayki categoriataq qillqay (EVALUACIÓN, CLASE, TAREA, SÍLABO, CRONOGRAMA, GENERAL):"
  invalid_category := "❌ Mana allin categoria. Ama hina kaspa, huk akllasqa opcionmanta akllay."
  update_summary := "✅ ¡Musuqyachiy allinta waqaychasqa!\n\nTukuy willakuy:\n- Yachay: \x7b\x7d\n- Seccion: \x7b\x7d\n- Categoria: \x7b\x7d\n- Ciclo: \x7b\x7d\n- Modulo: \x7b\x7d\n- Willakuy: \x7b\x7d"

/-- `get_translated_messages(language)`: the dict lookup falls back to the
Spanish table for anything that is not `"es"` or `"qu"`. -/
def get_translated_messages (language : String) : Messages :=
  if language = "qu" then quMessages else esMessages

/-! ## External collaborators of one turn -/

/-- The course data store as a turn sees it: the names in the `courses`
table.  `db.get_courses().keys()` returns exactly these names, and
`db.get_course_info(name, ...)` (src/database.py lines 255-340) returns a
record exactly when `name` has a row in the `courses` table — the
cycle/module/section arguments only filter the record's updates and
documents and never make the result `None`. -/
structure CourseDb where
  courses : List String
deriving DecidableEq

/-- The external responses a single turn can consume.  `moderation` is the
raw content of the moderation LLM reply (`none` = failure to obtain one);
the `..._match` and `category_suggestion` fields are the stripped contents
of the respective `LLMService` replies; `commit_ok`/`commit_err` model the
SQL insert of the update flow. -/
structure Oracle where
  moderation : Option String
  course_match : String
  module_match : String
  category_suggestion : String
  query_reply : String
  commit_ok : Bool
  commit_err : String
  db : CourseDb
deriving DecidableEq

/-- Observable actions of one turn: messages sent back, and invocations of
the external capabilities. -/
inductive Effect where
  | reply (text : String)
  | moderationCall (text : String)
  | identifyCourseCall (text : String)
  | identifyModuleCall (text : String)
  | suggestCategoryCall (text : String)
  | llmQueryCall (text : String)
  | commitUpdateCall (course secc content category ciclo modulo : String)
deriving DecidableEq

/-- `sep.join(parts)`. -/
def joinSep (sep : String) : List String → String
  | [] => ""
  | [x] => x
  | x :: y :: rest => x ++ sep ++ joinSep sep (y :: rest)

/-- The Spanish `courses_text` built at several call sites in main.py. -/
def coursesTextEs (courses : List String) : String :=
  if courses.isEmpty then "\nNo hay cursos disponibles en la base de datos."
  else "\nCursos disponibles:\n- " ++ joinSep "\n- " courses

/-- The Quechua `courses_text` variant. -/
def coursesTextQu (courses : List String) : String :=
  if courses.isEmpty then "\nMana yachaykuna kanchu base de datospi."
  else "\nKay yachaykuna kan:\n- " ++ joinSep "\n- " courses

/-- The reply sent when returning to the main menu (src/main.py lines
833-838 and 661-667); note the course list is always the Spanish variant. -/
def menuReply (msgs : Messages) (db : CourseDb) : String :=
  msgs.return_to_menu ++ "\n" ++ msgs.welcome ++ coursesTextEs db.courses ++ msgs.disclaimer

/-- `message and message.lower() in ['menu', '/menu']`. -/
def isMenuMsg (text : Option String) : Bool :=
  optTruthy text &&
    (pyLower (text.getD "") == "menu" || pyLower (text.getD "") == "/menu")

/-- The `str(e)` of the `ValueError` raised at commit time when a required
update field is falsy (src/main.py lines 751-763). -/
def missingFieldsMsg (st : UserState) : String :=
  "Faltan campos requeridos: " ++ joinSep ", "
    (List.filterMap (fun p : String × Bool => if p.2 then none else some p.1)
      [("curso", optTruthy st.update_course), ("sección", optTruthy st.section_),
       ("ciclo", optTruthy st.update_ciclo), ("módulo", optTruthy st.update_modulo),
       ("contenido", optTruthy st.update_content), ("categoría", optTruthy st.update_category)])

/-- Whether all six fields required at commit time are truthy. -/
def updateFieldsPresent (st : UserState) : Bool :=
  optTruthy st.update_course && optTruthy st.section_ && optTruthy st.update_ciclo &&
    optTruthy st.update_modulo && optTruthy st.update_content && optTruthy st.update_category

/-- The `update_content[:100] + "..."` preview of the commit summary. -/
def contentPreview (content : String) : String :=
  if content.data.length > 100 then String.mk (content.data.take 100) ++ "..." else content

/-! ## `handle_update_flow` (src/main.py lines 650-820) -/

/-- `handle_update_flow`: dispatch on `update_step` after the in-flow menu
check.  A `None` message raises `AttributeError` on `message.lower()` /
`message.upper()` in the confirmation and category steps; the surrounding
`except` then replies `error_processing`. -/
def handle_update_flow (st : UserState) (text : Option String) (o : Oracle) :
    UserState × List Effect :=
  let msgs := get_translated_messages (st.language.getD "es")
  let m := text.getD ""
  if !st.updating_course then (st, [])
  else if isMenuMsg text then
    (reset_state st, [.reply (menuReply msgs o.db)])
  else if st.update_step == some "course_selection" then
    if o.course_match ≠ "NO_MATCH" then
      ({ st with update_course := some o.course_match, update_step := some "content_input" },
        [.identifyCourseCall (optStr text),
         .reply (pyFormat msgs.course_selected [o.course_match] ++ "\n\n" ++
           msgs.enter_update_content ++ "\n\n(" ++ msgs.return_to_menu ++ ")")])
    else (st, [.identifyCourseCall (optStr text), .reply msgs.invalid_course])
  else if st.update_step == some "content_input" then
    if !optTruthy text || pyStrip m == "" then (st, [.reply msgs.update_empty])
    else if !(detect_inappropriate_content o.moderation).1 then
      (st, [.moderationCall m, .reply (detect_inappropriate_content o.moderation).2])
    else
      ({ st with
          update_content := some (pyStrip m)
          update_category := some o.category_suggestion
          update_step := some "category_confirmation" },
        [.moderationCall m, .suggestCategoryCall m,
         .reply (msgs.content_received ++ "\n\n" ++
           pyFormat msgs.suggested_category [o.category_suggestion] ++ "\n\n" ++
           msgs.confirm_category ++ "\n\n(" ++ msgs.return_to_menu ++ ")")])
  else if st.update_step == some "category_confirmation" then
    if text.isNone then (st, [.reply msgs.error_processing])
    else if ["sí", "si", "yes", "y", "arí", "ari"].contains (pyLower m) then
      ({ st with update_step := some "ciclo_selection" }, [.reply msgs.ciclo_selection])
    else
      ({ st with update_step := some "category_input" },
        [.reply (msgs.enter_category ++ "\n\n(" ++ msgs.return_to_menu ++ ")")])
  else if st.update_step == some "category_input" then
    if text.isNone then (st, [.reply msgs.error_processing])
    else if ["EVALUACIÓN", "CLASE", "TAREA", "SÍLABO", "CRONOGRAMA", "GENERAL"].contains
        (pyUpper m) then
      ({ st with update_category := some (pyUpper m), update_step := some "ciclo_selection" },
        [.reply msgs.ciclo_selection])
    else (st, [.reply msgs.invalid_category])
  else if st.update_step == some "ciclo_selection" then
    if validate_ciclo m then
      ({ st with update_ciclo := text, update_step := some "section_selection" },
        [.reply msgs.section_selection])
    else (st, [.reply msgs.invalid_ciclo])
  else if st.update_step == some "section_selection" then
    if optTruthy text && pyStrip m != "" then
      ({ st with section_ := some (pyStrip m), update_step := some "modulo_selection" },
        [.reply msgs.modulo_selection])
    else (st, [.reply msgs.invalid_section])
  else if st.update_step == some "modulo_selection" then
    if o.module_match ≠ "NO_MATCH" then
      let st1 := { st with update_modulo := some o.module_match }
      if updateFieldsPresent st1 then
        if o.commit_ok then
          (reset_state st1,
            [.identifyModuleCall (optStr text),
             .commitUpdateCall (st1.update_course.getD "") (st1.section_.getD "")
               (st1.update_content.getD "") (st1.update_category.getD "")
               (st1.update_ciclo.getD "") (st1.update_modulo.getD ""),
             .reply (pyFormat msgs.update_summary
               [st1.update_course.getD "", st1.section_.getD "", st1.update_category.getD "",
                st1.update_ciclo.getD "", st1.update_modulo.getD "",
                contentPreview (st1.update_content.getD "")] ++
               "\n\n(" ++ msgs.return_to_menu ++ ")")])
        else
          (st1, [.identifyModuleCall (optStr text),
            .reply (pyFormat msgs.update_error [o.commit_err])])
      else
        (st1, [.identifyModuleCall (optStr text),
          .reply (pyFormat msgs.update_error [missingFieldsMsg st1])])
    else (st, [.identifyModuleCall (optStr text), .reply msgs.invalid_modulo])
  else (st, [])

/-! ## The query-flow tail of `handle_message` (src/main.py lines 854-967) -/

/-- Lines 949-967: the free-query branch.  It fires only for a truthy
message with a truthy selected course; a course with no row in the
`courses` table yields the `no_course_info` reply, formatted with the
session's course/cycle/module only. -/
def handle_query_step (st : UserState) (text : Option String) (o : Oracle)
    (msgs : Messages) : UserState × List Effect :=
  if optTruthy text && optTruthy st.course then
    if o.db.courses.contains (st.course.getD "") then
      (st, [.llmQueryCall (text.getD ""), .reply o.query_reply])
    else
      (st, [.reply (pyFormat msgs.no_course_info
        [st.course.getD "", optStr st.ciclo, optStr st.modulo])])
  else (st, [])

/-- Lines 940-946: the document-upload refusal, checked before the query
branch. -/
def handle_doc_step (st : UserState) (text : Option String) (hasDoc : Bool)
    (o : Oracle) (msgs : Messages) : UserState × List Effect :=
  if hasDoc then
    (st, [.reply "❌ Lo siento, la subida de documentos no está disponible en este momento.\nPor favor, contacta al administrador del curso para subir documentos."])
  else handle_query_step st text o msgs

/-- Lines 928-938: module selection; the branch returns whether or not the
message is truthy. -/
def handle_modulo_step (st : UserState) (text : Option String) (hasDoc : Bool)
    (o : Oracle) (msgs : Messages) : UserState × List Effect :=
  if st.waiting_for_modulo then
    if optTruthy text then
      if o.module_match ≠ "NO_MATCH" then
        ({ st with modulo := some o.module_match, waiting_for_modulo := false },
          [.identifyModuleCall (text.getD ""), .reply msgs.ready_for_query])
      else (st, [.identifyModuleCall (text.getD ""), .reply msgs.invalid_modulo])
    else (st, [])
  else handle_doc_step st text hasDoc o msgs

/-- Lines 916-926: cycle selection; the branch returns whether or not the
message is truthy. -/
def handle_ciclo_step (st : UserState) (text : Option String) (hasDoc : Bool)
    (o : Oracle) (msgs : Messages) : UserState × List Effect :=
  if st.waiting_for_ciclo then
    if optTruthy text then
      if validate_ciclo (text.getD "") then
        ({ st with ciclo := text, waiting_for_ciclo := false, waiting_for_modulo := true },
          [.reply msgs.modulo_selection])
      else (st, [.reply msgs.invalid_ciclo])
    else (st, [])
  else handle_modulo_step st text hasDoc o msgs

/-- Lines 905-914: section selection (always returns). -/
def handle_section_step (st : UserState) (text : Option String) (hasDoc : Bool)
    (o : Oracle) (msgs : Messages) : UserState × List Effect :=
  if st.waiting_for_section then
    if optTruthy text && pyStrip (text.getD "") != "" then
      ({ st with section_ := some (pyStrip (text.getD "")), waiting_for_section := false, waiting_for_ciclo := true },
        [.reply msgs.ciclo_selection])
    else (st, [.reply msgs.invalid_section])
  else handle_ciclo_step st text hasDoc o msgs

/-- Lines 880-903: course selection.  The early `return` sits inside
`if message:`, so a falsy message falls through to the later branches. -/
def handle_course_step (st : UserState) (text : Option String) (hasDoc : Bool)
    (o : Oracle) (msgs : Messages) : UserState × List Effect :=
  if st.waiting_for_course && optTruthy text then
    if o.course_match ≠ "NO_MATCH" then
      ({ st with course := some o.course_match, waiting_for_course := false, waiting_for_section := true },
        [.identifyCourseCall (text.getD ""),
         .reply (pyFormat msgs.course_selected [o.course_match] ++ "\n\n" ++
           msgs.section_selection)])
    else
      (st, [.identifyCourseCall (text.getD ""),
        .reply ("❌ No pude encontrar el curso \x27" ++ text.getD "" ++ "\x27.\n\nCursos disponibles:\n" ++
          joinSep "\n" (o.db.courses.map (fun c => "- " ++ c)) ++
          "\n\nPor favor, intenta escribir el nombre exacto de uno de estos cursos.")])
  else handle_section_step st text hasDoc o msgs

/-- Lines 854-878: language selection.  The reply texts use the table
computed on entry (before the new language is stored). -/
def handle_language_step (st : UserState) (text : Option String) (hasDoc : Bool)
    (o : Oracle) (msgs : Messages) : UserState × List Effect :=
  if st.waiting_for_language then
    if text == some "1" || text == some "es" || text == some "español" ||
        text == some "spanish" then
      ({ st with language := some "es", waiting_for_language := false, waiting_for_course := true },
        [.reply (msgs.welcome ++ coursesTextEs o.db.courses ++ msgs.disclaimer)])
    else if text == some "2" || text == some "qu" || text == some "quechua" ||
        text == some "qichwa" then
      ({ st with language := some "qu", waiting_for_language := false, waiting_for_course := true },
        [.reply (msgs.welcome ++ coursesTextQu o.db.courses ++ msgs.disclaimer)])
    else (st, [.reply "Por favor, selecciona un idioma válido (1/2)"])
  else handle_course_step st text hasDoc o msgs

/-- `handle_message` (src/main.py lines 822-972): menu interrupt, then the
moderation gate for any truthy message, then the update-flow dispatch, then
the query-flow chain. -/
def handle_message (st : UserState) (text : Option String) (hasDoc : Bool)
    (o : Oracle) : UserState × List Effect :=
  let msgs := get_translated_messages (st.language.getD "es")
  if isMenuMsg text && st.can_return_to_menu then
    (reset_state st, [.reply (menuReply msgs o.db)])
  else if optTruthy text then
    let m := text.getD ""
    if !(detect_inappropriate_content o.moderation).1 then
      (st, [.moderationCall m, .reply (detect_inappropriate_content o.moderation).2])
    else if st.updating_course then
      let r := handle_update_flow st text o
      (r.1, .moderationCall m :: r.2)
    else
      let r := handle_language_step st text hasDoc o msgs
      (r.1, .moderationCall m :: r.2)
  else if st.updating_course then handle_update_flow st text o
  else handle_language_step st text hasDoc o msgs

/-- `/start` (src/main.py lines 602-631): with no language set it only
shows the language keyboard; otherwise it greets and re-enters course
selection without clearing any other flag. -/
def start_command (st : UserState) (o : Oracle) : UserState × List Effect :=
  if !optTruthy st.language then
    (st, [.reply "Selecciona tu idioma / Simiykita akllay:"])
  else
    let msgs := get_translated_messages (st.language.getD "es")
    let ct := if st.language == some "qu" then coursesTextQu o.db.courses
      else coursesTextEs o.db.courses
    ({ st with waiting_for_course := true, can_return_to_menu := true },
      [.reply (msgs.welcome ++ ct ++ msgs.disclaimer)])

/-- `/update` (src/main.py lines 633-648): enters the update flow without
clearing any query-flow flag. -/
def update_command (st : UserState) (o : Oracle) : UserState × List Effect :=
  let msgs := get_translated_messages (st.language.getD "es")
  ({ st with updating_course := true, update_step := some "course_selection" },
    [.reply (msgs.update_welcome ++ "\n\n" ++ msgs.course_selection ++
      coursesTextEs o.db.courses)])

/-- `language_callback` (src/main.py lines 974-998): stores the pressed
button's data as the language and enters course selection. -/
def language_callback (st : UserState) (data : String) (o : Oracle) :
    UserState × List Effect :=
  let msgs := get_translated_messages data
  let ct := if data == "qu" then coursesTextQu o.db.courses else coursesTextEs o.db.courses
  ({ st with language := some data, waiting_for_language := false, waiting_for_course := true, can_return_to_menu := true },
    [.reply (msgs.welcome ++ ct ++ msgs.disclaimer)])

/-- The turns a session can receive. -/
inductive Event where
  | startCmd (o : Oracle)
  | updateCmd (o : Oracle)
  | langSelect (data : String) (o : Oracle)
  | message (text : Option String) (hasDoc : Bool) (o : Oracle)

/-- Dispatch one turn. -/
def apply_event (st : UserState) : Event → UserState × List Effect
  | .startCmd o => start_command st o
  | .updateCmd o => update_command st o
  | .langSelect d o => language_callback st d o
  | .message t h o => handle_message st t h o

/-- The session states reachable from the initial state by any sequence of
turns.  (No modelled turn appends to `messages`, so the 50-entry
truncation in `get_user_state` never fires and is omitted.) -/
inductive Reachable : UserState → Prop where
  | init : Reachable create_initial_state
  | step (s : UserState) (e : Event) : Reachable s → Reachable (apply_event s e).1

/-- The six mode flags of a session, in spec order. -/
def modeFlags (s : UserState) : List Bool :=
  [s.waiting_for_language, s.waiting_for_course, s.waiting_for_section,
   s.waiting_for_ciclo, s.waiting_for_modulo, s.updating_course]

/-- At most one mode flag set. -/
def atMostOneMode (s : UserState) : Bool := (modeFlags s).count true ≤ 1

/-- `update_step` is non-null exactly when the session is in the update flow. -/
def stepIffUpdating (s : UserState) : Bool := s.updating_course == s.update_step.isSome

/-- Does some reply of the turn mention `needle` as a substring? -/
def transcriptMentions (effs : List Effect) (needle : String) : Bool :=
  effs.any fun e =>
    match e with
    | .reply t => pyContains t needle
    | _ => false

/-- Was the query-answering language completion invoked? -/
def mentionsLlmQuery (effs : List Effect) : Bool :=
  effs.any fun e =>
    match e with
    | .llmQueryCall _ => true
    | _ => false

/-- Was the category-suggestion capability invoked? -/
def mentionsSuggestCategory (effs : List Effect) : Bool :=
  effs.any fun e =>
    match e with
    | .suggestCategoryCall _ => true
    | _ => false

/-- A benign oracle used by the concrete counterexample traces. -/
def oracle0 : Oracle :=
  { moderation := some "APPROPRIATE", course_match := "NO_MATCH",
    module_match := "NO_MATCH", category_suggestion := "GENERAL",
    query_reply := "respuesta", commit_ok := true, commit_err := "",
    db := { courses := [] } }

/-- A session that completed data collection (course/section/cycle/module
picked, Spanish) and now sits in `ready-for-query`. -/
def readyState : UserState :=
  { create_initial_state with
    waiting_for_language := false
    language := some "es"
    course := some "Estadística Aplicada"
    section_ := some "G1"
    ciclo := some "20241"
    modulo := some "A" }

/-- The oracle of the C1 counterexample turn: the data store knows exactly
one course, which is not the one stored in the session. -/
def c1Oracle : Oracle :=
  { oracle0 with db := { courses := ["CursoSecreto"] } }

/-- A session sitting in the update flow's content-input step. -/
def contentInputState : UserState :=
  { readyState with updating_course := true, update_step := some "content_input" }

/-- An oracle whose moderation reply flags the message. -/
def flaggedOracle : Oracle :=
  { oracle0 with moderation := some "INAPPROPRIATE: discurso de odio" }

/-- An oracle whose category suggestion is not one of the six closed
category labels. -/
def catOracle : Oracle :=
  { oracle0 with category_suggestion := "CATEGORIA INVENTADA" }

/-- A session awaiting the category confirmation, with the (invalid)
suggested category pending. -/
def confirmState : UserState :=
  { readyState with
    updating_course := true
    update_step := some "category_confirmation"
    update_category := some "CATEGORIA INVENTADA" }

/-- A session in the explicit category-input step. -/
def catInputState : UserState :=
  { readyState with updating_course := true, update_step := some "category_input" }

end CourseAssistant

-- THEOREMS

namespace CourseAssistant

theorem dropWhile_eq_self_of_all {α : Type} (p : α → Bool) (l : List α)
    (h : ∀ x ∈ l, p x = false) : List.dropWhile p l = l := by
  cases l with
  | nil => rfl
  | cons a t =>
    rw [List.dropWhile_cons, h a (by simp)]
    simp

theorem stripL_eq_self_of_all (l : List Char) (h : ∀ x ∈ l, isPyWS x = false) :
    stripL l = l := by
  unfold stripL
  rw [dropWhile_eq_self_of_all isPyWS l h]
  rw [dropWhile_eq_self_of_all isPyWS l.reverse
    (by intro x hx; exact h x (List.mem_reverse.mp hx))]
  exact List.reverse_reverse l

theorem stripL_sublist (l : List Char) : List.Sublist (stripL l) l := by
  unfold stripL
  have h1 : List.Sublist ((l.dropWhile isPyWS).reverse.dropWhile isPyWS)
      (l.dropWhile isPyWS).reverse := List.dropWhile_sublist _
  have h2 := h1.reverse
  simp only [List.reverse_reverse] at h2
  exact h2.trans (List.dropWhile_sublist _)

theorem decDigitValAux_spec (bs : List Nat) (n v : Nat)
    (h : decDigitValAux bs n = some v) :
    v ≤ 9 ∧ ∃ b ∈ bs, b ≤ n ∧ n ≤ b + 9 ∧ v = n - b := by
  induction bs with
  | nil => exact absurd h (by simp [decDigitValAux])
  | cons b bs ih =>
    unfold decDigitValAux at h
    split at h
    · rename_i hb
      have hv : v = n - b := by simpa using h.symm
      exact ⟨by omega, b, by simp, hb.1, hb.2, hv⟩
    · obtain ⟨h9, b2, hb2, hrest⟩ := ih h
      exact ⟨h9, b2, by simp [hb2], hrest⟩

theorem decDigit_le9 (c : Char) (v : Nat) (h : decDigitVal? c = some v) : v ≤ 9 :=
  (decDigitValAux_spec ndBases c.toNat v h).1

theorem decDigit_ge48 (c : Char) (v : Nat) (h : decDigitVal? c = some v) :
    48 ≤ c.toNat := by
  obtain ⟨-, b, hb, hle, -, -⟩ := decDigitValAux_spec ndBases c.toNat v h
  have hbase : ∀ x ∈ ndBases, 48 ≤ x := by decide
  have := hbase b hb
  omega

theorem digitsValAux_cons_some (c : Char) (cs : List Char) (acc d : Nat)
    (h : decDigitVal? c = some d) :
    digitsValAux (c :: cs) acc = digitsValAux cs (acc * 10 + d) := by
  simp only [digitsValAux, h]

theorem digitsValAux_cons_none (c : Char) (cs : List Char) (acc : Nat)
    (h : decDigitVal? c = none) : digitsValAux (c :: cs) acc = none := by
  simp only [digitsValAux, h]

theorem digitsValAux_lt (cs : List Char) :
    ∀ a n : Nat, digitsValAux cs a = some n → n < (a + 1) * 10 ^ cs.length := by
  induction cs with
  | nil =>
    intro a n h
    have ha : a = n := by simpa [digitsValAux] using h
    subst ha
    simp
  | cons c t ih =>
    intro a n h
    cases hd : decDigitVal? c with
    | none => rw [digitsValAux_cons_none _ _ _ hd] at h; exact absurd h (by simp)
    | some d =>
      rw [digitsValAux_cons_some _ _ _ _ hd] at h
      have h9 := decDigit_le9 c d hd
      have hrec := ih (a * 10 + d) n h
      calc n < (a * 10 + d + 1) * 10 ^ t.length := hrec
        _ ≤ ((a + 1) * 10) * 10 ^ t.length := by
            have hle : a * 10 + d + 1 ≤ (a + 1) * 10 := by omega
            exact Nat.mul_le_mul_right _ hle
        _ = (a + 1) * 10 ^ (c :: t).length := by
            simp [List.length_cons, pow_succ]
            ring

theorem digitsVal_lt (cs : List Char) (n : Nat) (h : digitsVal? cs = some n) :
    n < 10 ^ cs.length := by
  unfold digitsVal? at h
  split at h
  · exact absurd h (by simp)
  · have := digitsValAux_lt cs 0 n h
    simpa using this

theorem ws_lt48 (c : Char) (h : isPyWS c = true) : c.toNat < 48 := by
  unfold isPyWS at h
  simp only [Bool.or_eq_true, decide_eq_true_eq] at h
  rcases h with ((((h | h) | h) | h) | h) | h <;> subst h <;> decide

theorem digit_not_ws (c : Char) (v : Nat) (h : decDigitVal? c = some v) :
    isPyWS c = false := by
  cases hip : isPyWS c
  · rfl
  · exfalso
    have h1 := ws_lt48 c hip
    have h2 := decDigit_ge48 c v h
    omega

theorem digit_ne_sign (c : Char) (v : Nat) (h : decDigitVal? c = some v) :
    c ≠ '+' ∧ c ≠ '-' := by
  have h48 := decDigit_ge48 c v h
  constructor <;> (intro hc; subst hc; revert h48; decide)

theorem decDigitVal_plus : decDigitVal? '+' = none := by decide

theorem decDigitVal_minus : decDigitVal? '-' = none := by decide

theorem pyInt_single (e : Char) :
    pyInt? [e] = (decDigitVal? e).map Int.ofNat := by
  unfold pyInt?
  by_cases hws : isPyWS e = true
  · have hs : stripL [e] = [] := by
      unfold stripL
      simp [List.dropWhile_cons, hws]
    have hd : decDigitVal? e = none := by
      cases hd : decDigitVal? e with
      | none => rfl
      | some v => rw [digit_not_ws e v hd] at hws; exact absurd hws (by simp)
    rw [hs, hd]
    simp [digitsVal?]
  · have hs : stripL [e] = [e] :=
      stripL_eq_self_of_all [e] (by simpa using Bool.eq_false_iff.mpr hws)
    rw [hs]
    by_cases hp : e = '+'
    · subst hp
      rw [decDigitVal_plus]
      simp [digitsVal?]
    · by_cases hm : e = '-'
      · subst hm
        rw [decDigitVal_minus]
        simp [digitsVal?]
      · rw [if_neg (by simp [List.head?]; intro hc; exact hp hc),
          if_neg (by simp [List.head?]; intro hc; exact hm hc)]
        unfold digitsVal?
        rw [if_neg (by simp)]
        cases hd : decDigitVal? e with
        | none => rw [digitsValAux_cons_none _ _ _ hd]
        | some v =>
          rw [digitsValAux_cons_some _ _ _ _ hd]
          simp [digitsValAux]

theorem pyInt_year (cs : List Char) (y : Int) (hlen : cs.length = 4)
    (h : pyInt? cs = some y) (hy : 2000 ≤ y) :
    ∃ n, digitsVal? cs = some n ∧ y = (n : Int) := by
  unfold pyInt? at h
  have hsub := stripL_sublist cs
  have hle : (stripL cs).length ≤ 4 := hlen ▸ hsub.length_le
  cases hs : stripL cs with
  | nil => rw [hs] at h; simp [digitsVal?] at h
  | cons c0 rest =>
    rw [hs] at h hsub hle
    by_cases hp : c0 = '+'
    · exfalso
      rw [hp] at h
      rw [if_pos (show (('+' :: rest).head? = some '+') from rfl)] at h
      cases hrest : digitsVal? (List.tail ('+' :: rest)) with
      | none => rw [hrest] at h; exact absurd h (by simp)
      | some n =>
        rw [hrest] at h
        have hn := digitsVal_lt _ n hrest
        rw [List.tail_cons] at hn
        have hrl : rest.length ≤ 3 := by
          simp only [List.length_cons] at hle
          omega
        have hlt : n < 1000 := lt_of_lt_of_le hn (by
          calc 10 ^ rest.length ≤ 10 ^ 3 := Nat.pow_le_pow_right (by norm_num) hrl
            _ = 1000 := by norm_num)
        have hyn : y = (n : Int) := by simpa using h.symm
        rw [hyn] at hy
        have : 2000 ≤ n := by exact_mod_cast hy
        omega
    · by_cases hm : c0 = '-'
      · exfalso
        rw [hm] at h
        rw [if_neg (by simp only [List.head?_cons, Option.some.injEq]; decide),
          if_pos (show (('-' :: rest).head? = some '-') from rfl)] at h
        cases hrest : digitsVal? (List.tail ('-' :: rest)) with
        | none => rw [hrest] at h; exact absurd h (by simp)
        | some n =>
          rw [hrest] at h
          have hyn : y = -(n : Int) := by simpa using h.symm
          rw [hyn] at hy
          omega
      · rw [if_neg (by simp [List.head?]; intro hc2; exact hp hc2),
          if_neg (by simp [List.head?]; intro hc2; exact hm hc2)] at h
        cases hrest : digitsVal? (c0 :: rest) with
        | none => rw [hrest] at h; exact absurd h (by simp)
        | some n =>
          rw [hrest] at h
          have hyn : y = (n : Int) := by simpa using h.symm
          have hn2000 : 2000 ≤ n := by
            rw [hyn] at hy
            exact_mod_cast hy
          have hnlt := digitsVal_lt (c0 :: rest) n hrest
          have hlen4 : (c0 :: rest).length = 4 := by
            by_contra hne
            have h3 : (c0 :: rest).length ≤ 3 := by omega
            have : n < 1000 := lt_of_lt_of_le hnlt (by
              calc 10 ^ (c0 :: rest).length ≤ 10 ^ 3 := Nat.pow_le_pow_right (by norm_num) h3
                _ = 1000 := by norm_num)
            omega
          have hseq : c0 :: rest = cs := hsub.eq_of_length (by rw [hlen4, hlen])
          exact ⟨n, by rw [← hseq]; exact hrest, hyn⟩

theorem digitsVal_four (a b c d : Char) (n : Nat)
    (h : digitsVal? [a, b, c, d] = some n) :
    ∃ va vb vc vd, decDigitVal? a = some va ∧ decDigitVal? b = some vb ∧
      decDigitVal? c = some vc ∧ decDigitVal? d = some vd ∧
      n = va * 1000 + vb * 100 + vc * 10 + vd := by
  unfold digitsVal? at h
  rw [if_neg (by simp)] at h
  cases hva : decDigitVal? a with
  | none => rw [digitsValAux_cons_none _ _ _ hva] at h; exact absurd h (by simp)
  | some va =>
    rw [digitsValAux_cons_some _ _ _ _ hva] at h
    cases hvb : decDigitVal? b with
    | none => rw [digitsValAux_cons_none _ _ _ hvb] at h; exact absurd h (by simp)
    | some vb =>
      rw [digitsValAux_cons_some _ _ _ _ hvb] at h
      cases hvc : decDigitVal? c with
      | none => rw [digitsValAux_cons_none _ _ _ hvc] at h; exact absurd h (by simp)
      | some vc =>
        rw [digitsValAux_cons_some _ _ _ _ hvc] at h
        cases hvd : decDigitVal? d with
        | none => rw [digitsValAux_cons_none _ _ _ hvd] at h; exact absurd h (by simp)
        | some vd =>
          rw [digitsValAux_cons_some _ _ _ _ hvd] at h
          have h2 : digitsValAux [] ((((0 * 10 + va) * 10 + vb) * 10 + vc) * 10 + vd) =
              some ((((0 * 10 + va) * 10 + vb) * 10 + vc) * 10 + vd) := rfl
          rw [h2] at h
          have h3 := Option.some.inj h
          refine ⟨va, vb, vc, vd, rfl, rfl, rfl, rfl, ?_⟩
          omega

theorem digitsVal_four_val (a b c d : Char) (va vb vc vd : Nat)
    (hva : decDigitVal? a = some va) (hvb : decDigitVal? b = some vb)
    (hvc : decDigitVal? c = some vc) (hvd : decDigitVal? d = some vd) :
    digitsVal? [a, b, c, d] = some (va * 1000 + vb * 100 + vc * 10 + vd) := by
  unfold digitsVal?
  rw [if_neg (by simp)]
  rw [digitsValAux_cons_some _ _ _ _ hva, digitsValAux_cons_some _ _ _ _ hvb,
    digitsValAux_cons_some _ _ _ _ hvc, digitsValAux_cons_some _ _ _ _ hvd]
  have h0 : digitsValAux [] ((((0 * 10 + va) * 10 + vb) * 10 + vc) * 10 + vd) =
      some ((((0 * 10 + va) * 10 + vb) * 10 + vc) * 10 + vd) := rfl
  rw [h0]
  congr 1
  ring

theorem list_len5 {α : Type} (l : List α) (h : l.length = 5) :
    ∃ a b c d e, l = [a, b, c, d, e] := by
  match l, h with
  | [a, b, c, d, e], _ => exact ⟨a, b, c, d, e, rfl⟩

/-- C6, counterexample to the claim as stated: Python `int()` accepts any
Unicode decimal digits, so the source validator returns `True` on
`"٢٠٢٤1"` (Arabic-Indic 2024 followed by ASCII `1`) and on `"2024١"`,
neither of which consists of four ASCII digits followed by `1` or `2`. -/
theorem validate_ciclo_ascii_counterexample :
    validate_ciclo "٢٠٢٤1" = true ∧ cicloFormat "٢٠٢٤1" = false ∧
      validate_ciclo "2024١" = true ∧ cicloFormat "2024١" = false := by
  decide

/-- C6, amended: the validator accepts a string exactly when it is five
Unicode decimal digits whose first four form, by decimal value and in any
(even mixed) scripts, a year in `[2000, 2100]` and whose fifth has digit
value 1 or 2; in particular it accepts `"20241"`, `"20252"`, rejects
`"2024"`, `"202413"`, `"19991"`, `"20243"`, and also accepts the
mixed-script `"٢٠٢٤1"` and `"2024١"`. -/
theorem validate_ciclo_spec_unicode :
    (∀ s : String, validate_ciclo s = cicloFormatU s) ∧
      validate_ciclo "20241" = true ∧ validate_ciclo "20252" = true ∧
      validate_ciclo "2024" = false ∧ validate_ciclo "202413" = false ∧
      validate_ciclo "19991" = false ∧ validate_ciclo "20243" = false ∧
      validate_ciclo "٢٠٢٤1" = true ∧ validate_ciclo "2024١" = true := by
  refine ⟨?_, by decide, by decide, by decide, by decide, by decide, by decide,
    by decide, by decide⟩
  intro s
  rw [Bool.eq_iff_iff]
  constructor
  · intro hv
    unfold validate_ciclo at hv
    split at hv
    · exact absurd hv (by simp)
    · rename_i hlen5
      have hlen5x : s.data.length = 5 := by
        by_contra hne
        exact hlen5 hne
      obtain ⟨a, b, c, d, e, hdata⟩ := list_len5 s.data hlen5x
      rw [hdata] at hv
      cases hy : pyInt? ([a, b, c, d, e].take 4) with
      | none => rw [hy] at hv; exact absurd hv (by simp)
      | some year =>
        cases hsem : pyInt? ([a, b, c, d, e].drop 4) with
        | none => rw [hy, hsem] at hv; exact absurd hv (by simp)
        | some sem =>
          rw [hy, hsem] at hv
          simp only [Bool.and_eq_true, decide_eq_true_eq, Bool.or_eq_true,
            beq_iff_eq] at hv
          obtain ⟨⟨h2000, h2100⟩, hsem12⟩ := hv
          have htake : ([a, b, c, d, e].take 4) = [a, b, c, d] := rfl
          have hdrop : ([a, b, c, d, e].drop 4) = [e] := rfl
          rw [htake] at hy
          rw [hdrop] at hsem
          obtain ⟨n, hn, hyval⟩ := pyInt_year [a, b, c, d] year rfl hy h2000
          obtain ⟨va, vb, vc, vd, hva, hvb, hvc, hvd, hnval⟩ := digitsVal_four a b c d n hn
          rw [pyInt_single e] at hsem
          cases hve : decDigitVal? e with
          | none => rw [hve] at hsem; exact absurd hsem (by simp)
          | some ve =>
            rw [hve] at hsem
            have hsemval : sem = (ve : Int) := by simpa using hsem.symm
            have hveval : ve = 1 ∨ ve = 2 := by
              rcases hsem12 with h1 | h1 <;> rw [hsemval] at h1
              · left; exact_mod_cast h1
              · right; exact_mod_cast h1
            have hy2000 : 2000 ≤ n := by
              rw [hyval] at h2000
              exact_mod_cast h2000
            have hy2100 : n ≤ 2100 := by
              rw [hyval] at h2100
              exact_mod_cast h2100
            unfold cicloFormatU
            rw [hdata]
            simp only [hva, hvb, hvc, hvd, hve, Option.isSome_some, Option.getD_some,
              Bool.and_eq_true, Bool.or_eq_true, beq_iff_eq, decide_eq_true_eq,
              eq_self_iff_true, true_and, and_true]
            exact ⟨⟨by omega, by omega⟩, hveval⟩
  · intro hf
    unfold cicloFormatU at hf
    cases hdata : s.data with
    | nil => rw [hdata] at hf; exact absurd hf (by simp)
    | cons a t0 =>
      rw [hdata] at hf
      match t0, hf with
      | [b, c, d, e], hf =>
        simp only [Bool.and_eq_true, Bool.or_eq_true, beq_iff_eq,
          decide_eq_true_eq] at hf
        obtain ⟨⟨⟨⟨⟨⟨hsa, hsb⟩, hsc⟩, hsd⟩, hse⟩, ⟨h2000, h2100⟩⟩, hsem⟩ := hf
        obtain ⟨va, hva⟩ := Option.isSome_iff_exists.mp hsa
        obtain ⟨vb, hvb⟩ := Option.isSome_iff_exists.mp hsb
        obtain ⟨vc, hvc⟩ := Option.isSome_iff_exists.mp hsc
        obtain ⟨vd, hvd⟩ := Option.isSome_iff_exists.mp hsd
        obtain ⟨ve, hve⟩ := Option.isSome_iff_exists.mp hse
        rw [hva, hvb, hvc, hvd, Option.getD_some, Option.getD_some, Option.getD_some,
          Option.getD_some] at h2000 h2100
        rw [hve, Option.getD_some] at hsem
        unfold validate_ciclo
        rw [hdata]
        rw [if_neg (by simp)]
        have htake : ([a, b, c, d, e].take 4) = [a, b, c, d] := rfl
        have hdrop : ([a, b, c, d, e].drop 4) = [e] := rfl
        rw [htake, hdrop]
        have hstrip : stripL [a, b, c, d] = [a, b, c, d] := by
          apply stripL_eq_self_of_all
          intro x hx
          simp only [List.mem_cons, List.not_mem_nil, or_false] at hx
          rcases hx with rfl | rfl | rfl | rfl
          · exact digit_not_ws _ _ hva
          · exact digit_not_ws _ _ hvb
          · exact digit_not_ws _ _ hvc
          · exact digit_not_ws _ _ hvd
        have hyv : pyInt? [a, b, c, d] =
            some ((va * 1000 + vb * 100 + vc * 10 + vd : Nat) : Int) := by
          unfold pyInt?
          rw [hstrip]
          rw [if_neg (by simp [List.head?]; intro hc2; exact (digit_ne_sign a va hva).1 hc2),
            if_neg (by simp [List.head?]; intro hc2; exact (digit_ne_sign a va hva).2 hc2)]
          rw [digitsVal_four_val a b c d va vb vc vd hva hvb hvc hvd]
          rfl
        rw [hyv]
        have hsemv : pyInt? [e] = some ((ve : Nat) : Int) := by
          rw [pyInt_single e, hve]
          rfl
        rw [hsemv]
        simp only [Bool.and_eq_true, Bool.or_eq_true, beq_iff_eq, decide_eq_true_eq]
        refine ⟨⟨?_, ?_⟩, ?_⟩
        · exact_mod_cast h2000
        · exact_mod_cast h2100
        · rcases hsem with rfl | rfl
          · left; norm_num
          · right; norm_num

theorem splitOnce_isSome (cs : List Char) (c : Char) :
    (splitOnce cs c).isSome = containsSub cs [c] := by
  induction cs with
  | nil => rfl
  | cons a t ih =>
    unfold splitOnce containsSub
    by_cases hac : a = c
    · subst hac
      simp [List.isPrefixOf]
    · have hpre : List.isPrefixOf [c] (a :: t) = false := by
        simp [List.isPrefixOf]
        intro hc
        exact absurd hc.symm hac
      rw [if_neg hac, hpre]
      simp only [Bool.false_or, ← ih]
      cases splitOnce t c <;> rfl

theorem moderationWarning_ne (reason : String) : moderationWarning reason ≠ "" := by
  intro h
  have hd := congrArg String.data h
  rw [moderationWarning, String.data_append, String.data_append] at hd
  have h2 := (List.append_eq_nil.mp hd).1
  have h3 := (List.append_eq_nil.mp h2).1
  revert h3
  decide

/-- C4. The moderation check flags a message (approved = false with a
non-empty warning) exactly when the stripped LLM classification reply
starts with `INAPPROPRIATE` and contains a colon separating off a reason;
every other reply, and any failure to obtain one (`none`), yields approved
= true with an empty warning (fail-open). -/
theorem moderation_fail_open :
    (∀ resp : Option String,
      ((detect_inappropriate_content resp).1 = false ∧
          (detect_inappropriate_content resp).2 ≠ "") ↔
        (∃ s, resp = some s ∧ pyStartsWith (pyStrip s) "INAPPROPRIATE" = true ∧
          pyContains (pyStrip s) ":" = true)) ∧
    (∀ resp : Option String,
      ¬ (∃ s, resp = some s ∧ pyStartsWith (pyStrip s) "INAPPROPRIATE" = true ∧
          pyContains (pyStrip s) ":" = true) →
      detect_inappropriate_content resp = (true, "")) := by
  have key : ∀ resp : Option String,
      (((detect_inappropriate_content resp).1 = false ∧
          (detect_inappropriate_content resp).2 ≠ "") ↔
        (∃ s, resp = some s ∧ pyStartsWith (pyStrip s) "INAPPROPRIATE" = true ∧
          pyContains (pyStrip s) ":" = true)) ∧
      (¬ (∃ s, resp = some s ∧ pyStartsWith (pyStrip s) "INAPPROPRIATE" = true ∧
          pyContains (pyStrip s) ":" = true) →
        detect_inappropriate_content resp = (true, "")) := by
    intro resp
    cases resp with
    | none =>
      constructor
      · simp [detect_inappropriate_content]
      · intro _; rfl
    | some content =>
      have hcon : pyContains (pyStrip content) ":" =
          (splitOnce (pyStrip content).data ':').isSome := by
        rw [splitOnce_isSome]
        rfl
      by_cases hstart : pyStartsWith (pyStrip content) "INAPPROPRIATE" = true
      · cases hsplit : splitOnce (pyStrip content).data ':' with
        | some p =>
          have hval : detect_inappropriate_content (some content) =
              (false, moderationWarning (pyStrip ⟨p.2⟩)) := by
            simp only [detect_inappropriate_content, hstart, if_true, hsplit]
          constructor
          · rw [hval]
            constructor
            · intro _
              exact ⟨content, rfl, hstart, by rw [hcon, hsplit]; rfl⟩
            · intro _
              exact ⟨rfl, moderationWarning_ne _⟩
          · intro hnot
            exact absurd ⟨content, rfl, hstart, by rw [hcon, hsplit]; rfl⟩ hnot
        | none =>
          have hval : detect_inappropriate_content (some content) = (true, "") := by
            simp only [detect_inappropriate_content, hstart, if_true, hsplit]
          constructor
          · rw [hval]
            simp only [ne_eq]
            constructor
            · intro hc; exact absurd hc.1 (by simp)
            · rintro ⟨s, hs, _, hc⟩
              obtain rfl : s = content := by injection hs.symm
              rw [hcon, hsplit] at hc
              exact absurd hc (by simp)
          · intro _; exact hval
      · have hval : detect_inappropriate_content (some content) = (true, "") := by
          simp only [detect_inappropriate_content]
          rw [if_neg hstart]
        constructor
        · rw [hval]
          constructor
          · intro hc; exact absurd hc.1 (by simp)
          · rintro ⟨s, hs, hst, _⟩
            obtain rfl : s = content := by injection hs.symm
            exact absurd hst hstart
        · intro _; exact hval
  exact ⟨fun resp => (key resp).1, fun resp => (key resp).2⟩

theorem score_nonneg (d : ℚ) (hd : 0 ≤ d) : 0 ≤ 1 / (1 + d) := by positivity

theorem score_le_one (d : ℚ) (hd : 0 ≤ d) : 1 / (1 + d) ≤ 1 := by
  rw [div_le_one (by linarith)]
  linarith

theorem score_eq_one_iff (d : ℚ) (hd : 0 ≤ d) : 1 / (1 + d) = 1 ↔ d = 0 := by
  rw [div_eq_one_iff_eq (by linarith : (1 : ℚ) + d ≠ 0)]
  constructor
  · intro h; linarith
  · intro h; rw [h]; ring

theorem score_antitone (a b : ℚ) (ha : 0 ≤ a) (hab : a ≤ b) :
    1 / (1 + b) ≤ 1 / (1 + a) := by
  apply one_div_le_one_div_of_le <;> linarith

theorem filterMap_guard_eq_map {α : Type} (l : List Nat) (f : Nat → α) (n : Nat)
    (h : ∀ x ∈ l, x < n) :
    l.filterMap (fun x => if x < n then some (f x) else none) = l.map f := by
  induction l with
  | nil => rfl
  | cons a t ih =>
    rw [List.filterMap_cons, List.map_cons]
    rw [if_pos (h a (by simp))]
    rw [ih (fun x hx => h x (by simp [hx]))]

theorem search_eval (s : SemanticSearch) (dist : Nat → ℚ) (k : Nat)
    (hex : s.indexExists = true) (hsize : s.indexSize = s.texts.length)
    (hmlen : s.metadata.length = s.texts.length) (h0 : s.texts.length ≠ 0)
    (hk : s.texts.length ≤ k) :
    s.search dist k = (List.insertionSort (fun i j => dist i ≤ dist j)
      (List.range s.texts.length)).map (fun idx =>
        (s.texts.getD idx "", s.metadata.getD idx [], 1 / (1 + dist idx))) := by
  unfold SemanticSearch.search
  have hcond : (!s.indexExists || s.texts.length == 0) = false := by
    rw [hex]
    simp [h0]
  rw [hcond]
  simp only [Bool.false_eq_true, if_false]
  rw [min_eq_right hk, hsize]
  have horder := List.perm_insertionSort (fun i j => dist i ≤ dist j)
    (List.range s.texts.length)
  have hordlen : (List.insertionSort (fun i j => dist i ≤ dist j)
      (List.range s.texts.length)).length = s.texts.length := by
    rw [horder.length_eq, List.length_range]
  have hmem_lt : ∀ idx ∈ List.insertionSort (fun i j => dist i ≤ dist j)
      (List.range s.texts.length), idx < s.texts.length := by
    intro idx hidx
    exact List.mem_range.mp (horder.mem_iff.mp hidx)
  rw [List.take_of_length_le (le_of_eq hordlen)]
  rw [if_pos ?_]
  · exact filterMap_guard_eq_map _ _ _ hmem_lt
  · rw [List.all_eq_true]
    intro idx hidx
    simp only [decide_eq_true_eq]
    rw [hmlen]
    exact hmem_lt idx hidx

/-- C5. Clearing the index and then adding `N` fragments makes `search`
with `k ≥ N` return exactly `N` results, with similarity scores in
non-increasing order (for any non-negative distance profile and any
metadata that is absent/empty or matching the fragment count). -/
theorem search_clear_add_count (s0 : SemanticSearch) (ts : List String)
    (ms : List MetaDict) (dist : Nat → ℚ) (k : Nat)
    (hm : ms = [] ∨ ms.length = ts.length) (hk : ts.length ≤ k)
    (hd : ∀ i, 0 ≤ dist i) :
    ((s0.clear.add_texts ts ms).search dist k).length = ts.length ∧
      List.Pairwise (fun r1 r2 : String × MetaDict × ℚ => r2.2.2 ≤ r1.2.2)
        ((s0.clear.add_texts ts ms).search dist k) := by
  have htexts : (s0.clear.add_texts ts ms).texts = ts := by
    simp [SemanticSearch.add_texts, SemanticSearch.clear, SemanticSearch.init]
  have hsize : (s0.clear.add_texts ts ms).indexSize = ts.length := by
    simp [SemanticSearch.add_texts, SemanticSearch.clear, SemanticSearch.init]
  have hmlen : (s0.clear.add_texts ts ms).metadata.length = ts.length := by
    simp only [SemanticSearch.add_texts, SemanticSearch.clear, SemanticSearch.init,
      List.nil_append]
    cases hms : ms with
    | nil => simp
    | cons x xs =>
      rcases hm with hnil | hlen
      · rw [hms] at hnil; exact absurd hnil (by simp)
      · rw [hms] at hlen
        simp [← hlen]
  by_cases h0 : ts.length = 0
  · obtain rfl : ts = [] := List.length_eq_zero.mp h0
    have : (s0.clear.add_texts [] ms).search dist k = [] := by
      unfold SemanticSearch.search
      rw [if_pos]
      rw [htexts]
      simp
    rw [this]
    simp
  · have heval := search_eval (s0.clear.add_texts ts ms) dist k rfl
      (by rw [hsize, htexts]) (by rw [hmlen, htexts]) (by rw [htexts]; exact h0)
      (by rw [htexts]; exact hk)
    rw [heval, htexts]
    constructor
    · rw [List.length_map,
        (List.perm_insertionSort (fun i j => dist i ≤ dist j) (List.range ts.length)).length_eq,
        List.length_range]
    · rw [List.pairwise_map]
      have htot : IsTotal Nat (fun i j => dist i ≤ dist j) := ⟨fun a b => le_total _ _⟩
      have htr : IsTrans Nat (fun i j => dist i ≤ dist j) :=
        ⟨fun a b c hab hbc => le_trans hab hbc⟩
      have hsorted : List.Pairwise (fun i j => dist i ≤ dist j)
          (List.insertionSort (fun i j => dist i ≤ dist j) (List.range ts.length)) :=
        List.sorted_insertionSort _ _
      exact hsorted.imp (fun hab => score_antitone _ _ (hd _) hab)

/-- C8. Every returned similarity score is `1 / (1 + distance)` for some
indexed position's non-negative distance, hence lies in `[0, 1]` and equals
`1` exactly when that distance is `0`. -/
theorem search_score_bounds (s : SemanticSearch) (dist : Nat → ℚ) (k : Nat)
    (hd : ∀ i, 0 ≤ dist i) :
    ∀ r ∈ s.search dist k, ∃ i, r.2.2 = 1 / (1 + dist i) ∧
      0 ≤ r.2.2 ∧ r.2.2 ≤ 1 ∧ (r.2.2 = 1 ↔ dist i = 0) := by
  intro r hr
  unfold SemanticSearch.search at hr
  split at hr
  · exact absurd hr (by simp)
  · dsimp only at hr
    split at hr
    · rw [List.mem_filterMap] at hr
      obtain ⟨idx, hmem, hf⟩ := hr
      split at hf
      · obtain rfl := Option.some.inj hf
        exact ⟨idx, rfl, score_nonneg _ (hd idx), score_le_one _ (hd idx),
          score_eq_one_iff _ (hd idx)⟩
      · exact absurd hf (by simp)
    · exact absurd hr (by simp)

theorem aligned_step (s : SemanticSearch) (op : SemOp) (hs : s.aligned)
    (hc : op.compliant) : (applySemOp s op).aligned := by
  obtain ⟨h1, h2⟩ := hs
  cases op with
  | clearOp => exact ⟨rfl, rfl⟩
  | addOp t m =>
    simp only [applySemOp, SemanticSearch.add_texts, SemanticSearch.aligned,
      List.length_append]
    by_cases hm : m = []
    · subst hm
      simp only [List.isEmpty_nil, if_true, List.length_map, List.length_append]
      omega
    · rcases hc with rfl | hlen
      · exact absurd rfl hm
      · have : m.isEmpty = false := by
          cases m with
          | nil => exact absurd rfl hm
          | cons x xs => rfl
        rw [this]
        simp only [Bool.false_eq_true, if_false, List.length_append]
        omega

/-- C10. Starting from a fresh index, any sequence of `clear` /
`add_texts` calls whose metadata is absent/empty or matches its texts in
length keeps `len(texts) == len(metadata) == ntotal`; under that alignment
every search result pairs a text with the metadata stored at its position,
and the rows appended by a compliant `add_texts` are exactly the supplied
(text, metadata) pairs — while one `add_texts` call with a non-empty
metadata list of a different length breaks the alignment. -/
theorem metadata_alignment :
    (∀ ops : List SemOp, (∀ op ∈ ops, op.compliant) →
        (applySemOps SemanticSearch.init ops).aligned) ∧
    (∀ (s : SemanticSearch) (dist : Nat → ℚ) (k : Nat), s.aligned →
        ∀ r ∈ s.search dist k, (r.1, r.2.1) ∈ s.texts.zip s.metadata) ∧
    (∀ (s : SemanticSearch) (t : List String) (m : List MetaDict), s.aligned →
        ((s.add_texts t m).texts.zip (s.add_texts t m).metadata) =
          s.texts.zip s.metadata ++
            t.zip (if m.isEmpty then t.map (fun _ => ([] : MetaDict)) else m)) ∧
    (∀ (s : SemanticSearch) (t : List String) (m : List MetaDict), s.aligned →
        m ≠ [] → m.length ≠ t.length → ¬ (s.add_texts t m).aligned) := by
  refine ⟨?_, ?_, ?_, ?_⟩
  · have gen : ∀ (ops : List SemOp) (s : SemanticSearch), s.aligned →
        (∀ op ∈ ops, op.compliant) → (applySemOps s ops).aligned := by
      intro ops
      induction ops with
      | nil => intro s hs _; exact hs
      | cons op rest ih =>
        intro s hs hc
        exact ih (applySemOp s op) (aligned_step s op hs (hc op (by simp)))
          (fun o ho => hc o (by simp [ho]))
    intro ops hc
    exact gen ops SemanticSearch.init ⟨rfl, rfl⟩ hc
  · intro s dist k hs r hr
    unfold SemanticSearch.search at hr
    split at hr
    · exact absurd hr (by simp)
    · dsimp only at hr
      split at hr
      · rw [List.mem_filterMap] at hr
        obtain ⟨idx, hmem, hf⟩ := hr
        split at hf
        · rename_i hlt
          obtain rfl := Option.some.inj hf
          have hmlt : idx < s.metadata.length := by
            rw [hs.1] at hlt; exact hlt
          have hzlt : idx < (s.texts.zip s.metadata).length := by
            rw [List.length_zip]
            exact lt_min hlt hmlt
          have : (s.texts.getD idx "", s.metadata.getD idx []) =
              (s.texts.zip s.metadata).get ⟨idx, hzlt⟩ := by
            rw [List.getD_eq_getElem s.texts "" hlt, List.getD_eq_getElem s.metadata [] hmlt]
            rw [List.get_eq_getElem, List.getElem_zip]
          rw [this, List.get_eq_getElem]
          exact List.getElem_mem _
        · exact absurd hf (by simp)
      · exact absurd hr (by simp)
  · intro s t m hs
    simp only [SemanticSearch.add_texts]
    exact List.zip_append hs.1
  · intro s t m hs hne hlen halig
    obtain ⟨h1, h2⟩ := halig
    have hie : m.isEmpty = false := by
      cases m with
      | nil => exact absurd rfl hne
      | cons x xs => rfl
    simp only [SemanticSearch.add_texts, hie, Bool.false_eq_true, if_false,
      List.length_append] at h1
    have := hs.1
    omega

theorem search_clear_add_count_witness :
    ((([] : List MetaDict) = [] ∨
        ([] : List MetaDict).length = (["hay examen", "clase"] : List String).length) ∧
      (["hay examen", "clase"] : List String).length ≤ 5 ∧
      (∀ i : Nat, (0 : ℚ) ≤ (i : ℚ) + 1)) ∧
    (((SemanticSearch.init.clear.add_texts ["hay examen", "clase"] []).search
        (fun i => (i : ℚ) + 1) 5).length = (["hay examen", "clase"] : List String).length ∧
      List.Pairwise (fun r1 r2 : String × MetaDict × ℚ => r2.2.2 ≤ r1.2.2)
        ((SemanticSearch.init.clear.add_texts ["hay examen", "clase"] []).search
          (fun i => (i : ℚ) + 1) 5)) :=
  ⟨⟨Or.inl rfl, by norm_num, fun i => by positivity⟩,
    search_clear_add_count SemanticSearch.init ["hay examen", "clase"] []
      (fun i => (i : ℚ) + 1) 5 (Or.inl rfl) (by norm_num) (fun i => by positivity)⟩

theorem search_score_bounds_witness :
    (∀ i : Nat, (0 : ℚ) ≤ (fun _ : Nat => (0 : ℚ)) i) ∧
    (∀ r ∈ (SemanticSearch.init.add_texts ["examen parcial"] []).search
        (fun _ : Nat => (0 : ℚ)) 5,
      ∃ i, r.2.2 = 1 / (1 + (fun _ : Nat => (0 : ℚ)) i) ∧
        0 ≤ r.2.2 ∧ r.2.2 ≤ 1 ∧ (r.2.2 = 1 ↔ (fun _ : Nat => (0 : ℚ)) i = 0)) :=
  ⟨fun _ => le_refl 0,
    search_score_bounds (SemanticSearch.init.add_texts ["examen parcial"] [])
      (fun _ => (0 : ℚ)) 5 (fun _ => le_refl 0)⟩

theorem metadata_alignment_witness :
    (∀ op ∈ [SemOp.addOp ["a", "b"] [], SemOp.clearOp,
        SemOp.addOp ["c"] [[("categoria", "CLASE")]]], op.compliant) ∧
    (applySemOps SemanticSearch.init [SemOp.addOp ["a", "b"] [], SemOp.clearOp,
        SemOp.addOp ["c"] [[("categoria", "CLASE")]]]).aligned := by
  have hc : ∀ op ∈ [SemOp.addOp ["a", "b"] [], SemOp.clearOp,
      SemOp.addOp ["c"] [[("categoria", "CLASE")]]], op.compliant := by
    intro op hop
    simp only [List.mem_cons, List.not_mem_nil, or_false] at hop
    rcases hop with rfl | rfl | rfl
    · exact Or.inl rfl
    · trivial
    · exact Or.inr rfl
  exact ⟨hc, metadata_alignment.1 _ hc⟩

end CourseAssistant


namespace CourseAssistant

theorem pyLower_empty : pyLower "" = "" := rfl

theorem menu_ne_empty {m : String} (hm : pyLower m = "menu" ∨ pyLower m = "/menu") :
    m ≠ "" := by
  intro h
  subst h
  rcases hm with h | h <;> rw [pyLower_empty] at h <;> exact absurd h (by decide)

theorem isMenuMsg_true {m : String} (hm : pyLower m = "menu" ∨ pyLower m = "/menu") :
    isMenuMsg (some m) = true := by
  have hne := menu_ne_empty hm
  unfold isMenuMsg optTruthy
  simp only [Option.getD_some]
  rcases hm with h | h <;> simp [h, hne]

/-- C2. From any session state, a `menu`/`/menu` message (with the
always-true `can_return_to_menu` flag set) resets the session: the new
state is exactly `reset_state` of the old one, which is in the
awaiting-course state with course, section, cycle, module and every
update-flow field cleared, while language, message history — and the
`waiting_for_language` flag — are untouched. -/
theorem menu_resets_session (st : UserState) (m : String) (hasDoc : Bool) (o : Oracle)
    (hm : pyLower m = "menu" ∨ pyLower m = "/menu")
    (hcr : st.can_return_to_menu = true) :
    (handle_message st (some m) hasDoc o).1 = reset_state st ∧
    (handle_message st (some m) hasDoc o).1.waiting_for_course = true ∧
    (handle_message st (some m) hasDoc o).1.course = none ∧
    (handle_message st (some m) hasDoc o).1.section_ = none ∧
    (handle_message st (some m) hasDoc o).1.ciclo = none ∧
    (handle_message st (some m) hasDoc o).1.modulo = none ∧
    (handle_message st (some m) hasDoc o).1.updating_course = false ∧
    (handle_message st (some m) hasDoc o).1.update_course = none ∧
    (handle_message st (some m) hasDoc o).1.update_content = none ∧
    (handle_message st (some m) hasDoc o).1.update_category = none ∧
    (handle_message st (some m) hasDoc o).1.update_ciclo = none ∧
    (handle_message st (some m) hasDoc o).1.update_modulo = none ∧
    (handle_message st (some m) hasDoc o).1.update_step = none ∧
    (handle_message st (some m) hasDoc o).1.language = st.language ∧
    (handle_message st (some m) hasDoc o).1.messages = st.messages := by
  have hcond : (isMenuMsg (some m) && st.can_return_to_menu) = true := by
    rw [isMenuMsg_true hm, hcr]
    rfl
  have hval : handle_message st (some m) hasDoc o =
      (reset_state st,
        [.reply (menuReply (get_translated_messages (st.language.getD "es")) o.db)]) := by
    unfold handle_message
    rw [hcond]
    rfl
  rw [hval]
  refine ⟨rfl, ?_⟩
  simp [reset_state]

theorem menu_resets_session_witness :
    ((pyLower "MENU" = "menu" ∨ pyLower "MENU" = "/menu") ∧
      readyState.can_return_to_menu = true) ∧
    ((handle_message readyState (some "MENU") false oracle0).1 = reset_state readyState ∧
    (handle_message readyState (some "MENU") false oracle0).1.waiting_for_course = true ∧
    (handle_message readyState (some "MENU") false oracle0).1.course = none ∧
    (handle_message readyState (some "MENU") false oracle0).1.section_ = none ∧
    (handle_message readyState (some "MENU") false oracle0).1.ciclo = none ∧
    (handle_message readyState (some "MENU") false oracle0).1.modulo = none ∧
    (handle_message readyState (some "MENU") false oracle0).1.updating_course = false ∧
    (handle_message readyState (some "MENU") false oracle0).1.update_course = none ∧
    (handle_message readyState (some "MENU") false oracle0).1.update_content = none ∧
    (handle_message readyState (some "MENU") false oracle0).1.update_category = none ∧
    (handle_message readyState (some "MENU") false oracle0).1.update_ciclo = none ∧
    (handle_message readyState (some "MENU") false oracle0).1.update_modulo = none ∧
    (handle_message readyState (some "MENU") false oracle0).1.update_step = none ∧
    (handle_message readyState (some "MENU") false oracle0).1.language = readyState.language ∧
    (handle_message readyState (some "MENU") false oracle0).1.messages = readyState.messages) :=
  ⟨⟨Or.inl (by decide), rfl⟩,
    menu_resets_session readyState "MENU" false oracle0 (Or.inl (by decide)) rfl⟩

theorem isMenuMsg_false {m : String} (h1 : pyLower m ≠ "menu") (h2 : pyLower m ≠ "/menu") :
    isMenuMsg (some m) = false := by
  unfold isMenuMsg
  simp [h1, h2]

/-- C7. A session sitting in the `content_input` update step whose (truthy,
non-menu) message is rejected by the moderation gate is left completely
unchanged — in particular `update_step` stays `content_input` and
`update_content` stays as it was — and the category-suggestion capability
is not invoked: the turn only sends the moderation warning. -/
theorem moderation_blocks_update_content (st : UserState) (m : String) (hasDoc : Bool)
    (o : Oracle)
    (_hupd : st.updating_course = true)
    (hstep : st.update_step = some "content_input")
    (h1 : pyLower m ≠ "menu") (h2 : pyLower m ≠ "/menu") (hne : m ≠ "")
    (hmod : (detect_inappropriate_content o.moderation).1 = false) :
    handle_message st (some m) hasDoc o =
      (st, [.moderationCall m, .reply (detect_inappropriate_content o.moderation).2]) ∧
    (handle_message st (some m) hasDoc o).1.update_step = some "content_input" ∧
    (handle_message st (some m) hasDoc o).1.update_content = st.update_content ∧
    mentionsSuggestCategory (handle_message st (some m) hasDoc o).2 = false := by
  have hcond : (isMenuMsg (some m) && st.can_return_to_menu) = false := by
    rw [isMenuMsg_false h1 h2]
    rfl
  have htr : optTruthy (some m) = true := by simp [optTruthy, hne]
  have hval : handle_message st (some m) hasDoc o =
      (st, [.moderationCall m, .reply (detect_inappropriate_content o.moderation).2]) := by
    unfold handle_message
    rw [hcond]
    simp only [Bool.false_eq_true, if_false, htr, if_true]
    rw [hmod]
    rfl
  rw [hval]
  exact ⟨rfl, hstep, rfl, rfl⟩

theorem moderation_blocks_update_content_witness :
    (contentInputState.updating_course = true ∧
      contentInputState.update_step = some "content_input" ∧
      pyLower "contenido ofensivo" ≠ "menu" ∧ pyLower "contenido ofensivo" ≠ "/menu" ∧
      "contenido ofensivo" ≠ "" ∧
      (detect_inappropriate_content flaggedOracle.moderation).1 = false) ∧
    (handle_message contentInputState (some "contenido ofensivo") false flaggedOracle =
      (contentInputState,
        [.moderationCall "contenido ofensivo",
         .reply (detect_inappropriate_content flaggedOracle.moderation).2]) ∧
      (handle_message contentInputState (some "contenido ofensivo") false
        flaggedOracle).1.update_step = some "content_input" ∧
      (handle_message contentInputState (some "contenido ofensivo") false
        flaggedOracle).1.update_content = contentInputState.update_content ∧
      mentionsSuggestCategory (handle_message contentInputState (some "contenido ofensivo")
        false flaggedOracle).2 = false) :=
  ⟨⟨rfl, rfl, by decide, by decide, by decide, by decide⟩,
    moderation_blocks_update_content contentInputState "contenido ofensivo" false
      flaggedOracle rfl rfl (by decide) (by decide) (by decide) (by decide)⟩

theorem handle_message_update_dispatch (st : UserState) (m : String) (hasDoc : Bool)
    (o : Oracle)
    (h1 : pyLower m ≠ "menu") (h2 : pyLower m ≠ "/menu") (hne : m ≠ "")
    (hmod : (detect_inappropriate_content o.moderation).1 = true)
    (hupd : st.updating_course = true) :
    handle_message st (some m) hasDoc o =
      ((handle_update_flow st (some m) o).1,
        .moderationCall m :: (handle_update_flow st (some m) o).2) := by
  have hcond : (isMenuMsg (some m) && st.can_return_to_menu) = false := by
    rw [isMenuMsg_false h1 h2]
    rfl
  have htr : optTruthy (some m) = true := by simp [optTruthy, hne]
  unfold handle_message
  rw [hcond]
  simp only [Bool.false_eq_true, if_false, htr, if_true]
  rw [hmod]
  simp only [Bool.not_true, Bool.false_eq_true, if_false, hupd, if_true]
  rfl

theorem update_flow_content_accepted (st : UserState) (m : String) (o : Oracle)
    (hupd : st.updating_course = true)
    (hstep : st.update_step = some "content_input")
    (h1 : pyLower m ≠ "menu") (h2 : pyLower m ≠ "/menu")
    (hstrip : pyStrip m ≠ "")
    (hmod : (detect_inappropriate_content o.moderation).1 = true) :
    handle_update_flow st (some m) o =
      ({ st with
          update_content := some (pyStrip m)
          update_category := some o.category_suggestion
          update_step := some "category_confirmation" },
        [.moderationCall m, .suggestCategoryCall m,
         .reply ((get_translated_messages (st.language.getD "es")).content_received ++ "\n\n" ++
           pyFormat (get_translated_messages (st.language.getD "es")).suggested_category
             [o.category_suggestion] ++ "\n\n" ++
           (get_translated_messages (st.language.getD "es")).confirm_category ++ "\n\n(" ++
           (get_translated_messages (st.language.getD "es")).return_to_menu ++ ")")]) := by
  have hne : m ≠ "" := by
    intro h
    subst h
    exact hstrip rfl
  have htr : optTruthy (some m) = true := by simp [optTruthy, hne]
  unfold handle_update_flow
  rw [hupd, hstep, isMenuMsg_false h1 h2]
  rw [show ((some "content_input" : Option String) == some "course_selection") = false from
    by decide]
  rw [show ((some "content_input" : Option String) == some "content_input") = true from
    by decide]
  simp only [Bool.not_true, Bool.false_eq_true, if_false, if_true, Option.getD_some]
  rw [htr]
  rw [show (pyStrip m == "") = false from beq_eq_false_iff_ne.mpr hstrip]
  simp only [Bool.not_true, Bool.false_or, Bool.false_eq_true, if_false]
  rw [hmod]
  simp only [Bool.not_true, Bool.false_eq_true, if_false]

theorem update_flow_confirmation_yes (st : UserState) (m : String) (o : Oracle)
    (hupd : st.updating_course = true)
    (hstep : st.update_step = some "category_confirmation")
    (haff : pyLower m = "sí" ∨ pyLower m = "si" ∨ pyLower m = "yes" ∨ pyLower m = "y" ∨
      pyLower m = "arí" ∨ pyLower m = "ari") :
    handle_update_flow st (some m) o =
      ({ st with update_step := some "ciclo_selection" },
        [.reply (get_translated_messages (st.language.getD "es")).ciclo_selection]) := by
  have h1 : pyLower m ≠ "menu" := by
    rcases haff with h | h | h | h | h | h <;> rw [h] <;> decide
  have h2 : pyLower m ≠ "/menu" := by
    rcases haff with h | h | h | h | h | h <;> rw [h] <;> decide
  unfold handle_update_flow
  rw [hupd, hstep, isMenuMsg_false h1 h2]
  rw [show ((some "category_confirmation" : Option String) == some "course_selection") = false
    from by decide]
  rw [show ((some "category_confirmation" : Option String) == some "content_input") = false
    from by decide]
  rw [show ((some "category_confirmation" : Option String) == some "category_confirmation") = true
    from by decide]
  simp only [Bool.not_true, Bool.false_eq_true, if_false, if_true, Option.getD_some,
    Option.isNone_some]
  have hc : (["sí", "si", "yes", "y", "arí", "ari"].contains (pyLower m)) = true := by
    rcases haff with h | h | h | h | h | h <;> rw [h] <;> decide
  rw [if_pos hc]

theorem update_flow_category_input_eval (st : UserState) (m : String) (o : Oracle)
    (hupd : st.updating_course = true)
    (hstep : st.update_step = some "category_input")
    (h1 : pyLower m ≠ "menu") (h2 : pyLower m ≠ "/menu") :
    (["EVALUACIÓN", "CLASE", "TAREA", "SÍLABO", "CRONOGRAMA", "GENERAL"].contains
        (pyUpper m) = true →
      handle_update_flow st (some m) o =
        ({ st with update_category := some (pyUpper m), update_step := some "ciclo_selection" },
          [.reply (get_translated_messages (st.language.getD "es")).ciclo_selection])) ∧
    (["EVALUACIÓN", "CLASE", "TAREA", "SÍLABO", "CRONOGRAMA", "GENERAL"].contains
        (pyUpper m) = false →
      handle_update_flow st (some m) o =
        (st, [.reply (get_translated_messages (st.language.getD "es")).invalid_category])) := by
  have key : ∀ b, (["EVALUACIÓN", "CLASE", "TAREA", "SÍLABO", "CRONOGRAMA", "GENERAL"].contains
      (pyUpper m) = b) →
      handle_update_flow st (some m) o =
        (if b then
          ({ st with update_category := some (pyUpper m), update_step := some "ciclo_selection" },
            [.reply (get_translated_messages (st.language.getD "es")).ciclo_selection])
         else (st, [.reply (get_translated_messages (st.language.getD "es")).invalid_category])) := by
    intro b hb
    unfold handle_update_flow
    rw [hupd, hstep, isMenuMsg_false h1 h2]
    rw [show ((some "category_input" : Option String) == some "course_selection") = false
      from by decide]
    rw [show ((some "category_input" : Option String) == some "content_input") = false
      from by decide]
    rw [show ((some "category_input" : Option String) == some "category_confirmation") = false
      from by decide]
    rw [show ((some "category_input" : Option String) == some "category_input") = true
      from by decide]
    simp only [Bool.not_true, Bool.false_eq_true, if_false, if_true, Option.getD_some,
      Option.isNone_some]
    rw [hb]
  exact ⟨fun hb => (key true hb).trans (if_pos rfl),
    fun hb => (key false hb).trans (if_neg (by decide))⟩

/-- C9. In the category-confirmation step an affirmative reply
(sí/si/yes/y/arí/ari, case-insensitively) leaves the pending category
exactly as the suggestion string stored when the content was accepted —
which is the category-suggestion capability's reply verbatim, stored with
no membership check against the closed category set — and only the
explicit category-input step enforces membership in
{EVALUACIÓN, CLASE, TAREA, SÍLABO, CRONOGRAMA, GENERAL}. -/
theorem category_suggestion_unchecked :
    (∀ (st : UserState) (m : String) (hasDoc : Bool) (o : Oracle),
      st.updating_course = true → st.update_step = some "content_input" →
      pyLower m ≠ "menu" → pyLower m ≠ "/menu" → pyStrip m ≠ "" →
      (detect_inappropriate_content o.moderation).1 = true →
      (handle_message st (some m) hasDoc o).1.update_category = some o.category_suggestion ∧
      (handle_message st (some m) hasDoc o).1.update_step = some "category_confirmation") ∧
    (∀ (st : UserState) (m : String) (hasDoc : Bool) (o : Oracle),
      st.updating_course = true → st.update_step = some "category_confirmation" →
      (detect_inappropriate_content o.moderation).1 = true →
      (pyLower m = "sí" ∨ pyLower m = "si" ∨ pyLower m = "yes" ∨ pyLower m = "y" ∨
        pyLower m = "arí" ∨ pyLower m = "ari") →
      (handle_message st (some m) hasDoc o).1.update_category = st.update_category ∧
      (handle_message st (some m) hasDoc o).1.update_step = some "ciclo_selection") ∧
    (∀ (st : UserState) (m : String) (hasDoc : Bool) (o : Oracle),
      st.updating_course = true → st.update_step = some "category_input" →
      pyLower m ≠ "menu" → pyLower m ≠ "/menu" → m ≠ "" →
      (detect_inappropriate_content o.moderation).1 = true →
      ((["EVALUACIÓN", "CLASE", "TAREA", "SÍLABO", "CRONOGRAMA", "GENERAL"].contains
          (pyUpper m) = true →
        (handle_message st (some m) hasDoc o).1.update_category = some (pyUpper m) ∧
        (handle_message st (some m) hasDoc o).1.update_step = some "ciclo_selection") ∧
       (["EVALUACIÓN", "CLASE", "TAREA", "SÍLABO", "CRONOGRAMA", "GENERAL"].contains
          (pyUpper m) = false →
        (handle_message st (some m) hasDoc o).1 = st))) := by
  refine ⟨?_, ?_, ?_⟩
  · intro st m hasDoc o hupd hstep h1 h2 hstrip hmod
    have hne : m ≠ "" := by
      intro h
      subst h
      exact hstrip rfl
    rw [handle_message_update_dispatch st m hasDoc o h1 h2 hne hmod hupd]
    rw [update_flow_content_accepted st m o hupd hstep h1 h2 hstrip hmod]
    exact ⟨rfl, rfl⟩
  · intro st m hasDoc o hupd hstep hmod haff
    have h1 : pyLower m ≠ "menu" := by
      rcases haff with h | h | h | h | h | h <;> rw [h] <;> decide
    have h2 : pyLower m ≠ "/menu" := by
      rcases haff with h | h | h | h | h | h <;> rw [h] <;> decide
    have hne : m ≠ "" := by
      intro h
      subst h
      rw [pyLower_empty] at haff
      rcases haff with h | h | h | h | h | h <;> exact absurd h (by decide)
    rw [handle_message_update_dispatch st m hasDoc o h1 h2 hne hmod hupd]
    rw [update_flow_confirmation_yes st m o hupd hstep haff]
    exact ⟨rfl, rfl⟩
  · intro st m hasDoc o hupd hstep h1 h2 hne hmod
    rw [handle_message_update_dispatch st m hasDoc o h1 h2 hne hmod hupd]
    obtain ⟨kt, kf⟩ := update_flow_category_input_eval st m o hupd hstep h1 h2
    constructor
    · intro hb
      rw [kt hb]
      exact ⟨rfl, rfl⟩
    · intro hb
      rw [kf hb]

theorem category_suggestion_unchecked_witness :
    ((contentInputState.updating_course = true ∧
        contentInputState.update_step = some "content_input" ∧
        pyLower "hay examen parcial" ≠ "menu" ∧ pyLower "hay examen parcial" ≠ "/menu" ∧
        pyStrip "hay examen parcial" ≠ "" ∧
        (detect_inappropriate_content catOracle.moderation).1 = true) ∧
      ((handle_message contentInputState (some "hay examen parcial") false catOracle).1.update_category
          = some catOracle.category_suggestion ∧
        (handle_message contentInputState (some "hay examen parcial") false catOracle).1.update_step
          = some "category_confirmation")) ∧
    ((confirmState.updating_course = true ∧
        confirmState.update_step = some "category_confirmation" ∧
        (detect_inappropriate_content catOracle.moderation).1 = true ∧
        pyLower "Sí" = "sí") ∧
      ((handle_message confirmState (some "Sí") false catOracle).1.update_category
          = confirmState.update_category ∧
        (handle_message confirmState (some "Sí") false catOracle).1.update_step
          = some "ciclo_selection")) ∧
    ((catInputState.updating_course = true ∧
        catInputState.update_step = some "category_input" ∧
        pyLower "categoria rara" ≠ "menu" ∧ pyLower "categoria rara" ≠ "/menu" ∧
        "categoria rara" ≠ "" ∧
        (detect_inappropriate_content catOracle.moderation).1 = true ∧
        ["EVALUACIÓN", "CLASE", "TAREA", "SÍLABO", "CRONOGRAMA", "GENERAL"].contains
          (pyUpper "categoria rara") = false) ∧
      (handle_message catInputState (some "categoria rara") false catOracle).1 = catInputState) :=
  ⟨⟨⟨rfl, rfl, by decide, by decide, by decide, by decide⟩,
      category_suggestion_unchecked.1 contentInputState "hay examen parcial" false catOracle
        rfl rfl (by decide) (by decide) (by decide) (by decide)⟩,
    ⟨⟨rfl, rfl, by decide, by decide⟩,
      category_suggestion_unchecked.2.1 confirmState "Sí" false catOracle rfl rfl
        (by decide) (Or.inl (by decide))⟩,
    ⟨⟨rfl, rfl, by decide, by decide, by decide, by decide, by decide⟩,
      (category_suggestion_unchecked.2.2 catInputState "categoria rara" false catOracle
        rfl rfl (by decide) (by decide) (by decide) (by decide)).2 (by decide)⟩⟩

theorem no_course_record_reply (st : UserState) (m : String) (o : Oracle) (c : String)
    (h1 : pyLower m ≠ "menu") (h2 : pyLower m ≠ "/menu") (hne : m ≠ "")
    (hmod : (detect_inappropriate_content o.moderation).1 = true)
    (hupd : st.updating_course = false) (hlang : st.waiting_for_language = false)
    (hwc : st.waiting_for_course = false) (hws : st.waiting_for_section = false)
    (hwci : st.waiting_for_ciclo = false) (hwm : st.waiting_for_modulo = false)
    (hcourse : st.course = some c) (hc : c ≠ "")
    (habsent : o.db.courses.contains c = false) :
    handle_message st (some m) false o =
      (st, [.moderationCall m,
        .reply (pyFormat (get_translated_messages (st.language.getD "es")).no_course_info
          [c, optStr st.ciclo, optStr st.modulo])]) ∧
    mentionsLlmQuery (handle_message st (some m) false o).2 = false := by
  have hcond : (isMenuMsg (some m) && st.can_return_to_menu) = false := by
    rw [isMenuMsg_false h1 h2]
    rfl
  have htr : optTruthy (some m) = true := by simp [optTruthy, hne]
  have hcourseT : optTruthy st.course = true := by
    rw [hcourse]
    simp [optTruthy, hc]
  have hchain : handle_language_step st (some m) false o
      (get_translated_messages (st.language.getD "es")) =
      (st, [.reply (pyFormat (get_translated_messages (st.language.getD "es")).no_course_info
        [c, optStr st.ciclo, optStr st.modulo])]) := by
    unfold handle_language_step
    rw [hlang]
    simp only [Bool.false_eq_true, if_false]
    unfold handle_course_step
    rw [hwc]
    simp only [Bool.false_and, Bool.false_eq_true, if_false]
    unfold handle_section_step
    rw [hws]
    simp only [Bool.false_eq_true, if_false]
    unfold handle_ciclo_step
    rw [hwci]
    simp only [Bool.false_eq_true, if_false]
    unfold handle_modulo_step
    rw [hwm]
    simp only [Bool.false_eq_true, if_false]
    unfold handle_doc_step
    simp only [Bool.false_eq_true, if_false]
    unfold handle_query_step
    rw [htr, hcourseT]
    simp only [Bool.and_self, if_true]
    rw [hcourse]
    simp only [Option.getD_some]
    rw [habsent]
    simp only [Bool.false_eq_true, if_false]
  have hval : handle_message st (some m) false o =
      (st, [.moderationCall m,
        .reply (pyFormat (get_translated_messages (st.language.getD "es")).no_course_info
          [c, optStr st.ciclo, optStr st.modulo])]) := by
    unfold handle_message
    rw [hcond]
    simp only [Bool.false_eq_true, if_false, htr, if_true]
    rw [hmod]
    simp only [Bool.not_true, Bool.false_eq_true, if_false, hupd, if_true]
    rw [hchain]
    rfl
  exact ⟨hval, by rw [hval]; rfl⟩

theorem no_course_record_reply_witness :
    ((pyLower "cuando es el examen" ≠ "menu" ∧ pyLower "cuando es el examen" ≠ "/menu" ∧
        "cuando es el examen" ≠ "" ∧
        (detect_inappropriate_content c1Oracle.moderation).1 = true ∧
        readyState.updating_course = false ∧ readyState.waiting_for_language = false ∧
        readyState.waiting_for_course = false ∧ readyState.waiting_for_section = false ∧
        readyState.waiting_for_ciclo = false ∧ readyState.waiting_for_modulo = false ∧
        readyState.course = some "Estadística Aplicada" ∧ "Estadística Aplicada" ≠ "" ∧
        c1Oracle.db.courses.contains "Estadística Aplicada" = false) ∧
      (handle_message readyState (some "cuando es el examen") false c1Oracle =
        (readyState, [.moderationCall "cuando es el examen",
          .reply (pyFormat (get_translated_messages (readyState.language.getD "es")).no_course_info
            ["Estadística Aplicada", optStr readyState.ciclo, optStr readyState.modulo])]) ∧
      mentionsLlmQuery (handle_message readyState (some "cuando es el examen") false
        c1Oracle).2 = false)) :=
  ⟨⟨by decide, by decide, by decide, by decide, rfl, rfl, rfl, rfl, rfl, rfl, rfl,
      by decide, by decide⟩,
    no_course_record_reply readyState "cuando es el examen" c1Oracle "Estadística Aplicada"
      (by decide) (by decide) (by decide) (by decide) rfl rfl rfl rfl rfl rfl rfl
      (by decide) (by decide)⟩

/-- C1, counterexample to the claim as stated: in the live query path
(`handle_message`, src/main.py lines 949-967) the turn for a session whose
selected course has no record replies with `no_course_info` formatted with
course/cycle/module only — it does not list the data store's known course
names ("CursoSecreto" is known but unmentioned).  The course-listing
variant exists only in the uncalled `process_query(state)` coroutine
(lines 414-420). -/
theorem no_course_record_counterexample :
    "CursoSecreto" ∈ c1Oracle.db.courses ∧
    c1Oracle.db.courses.contains (readyState.course.getD "") = false ∧
    ¬ (∀ c ∈ c1Oracle.db.courses,
        transcriptMentions
          (handle_message readyState (some "cuando es el examen") false c1Oracle).2 c
          = true) := by
  refine ⟨by decide, by decide, ?_⟩
  intro h
  have hmention := h "CursoSecreto" (by decide)
  exact absurd hmention (by decide)

theorem stepIffUpdating_iff (s : UserState) :
    stepIffUpdating s = true ↔ s.updating_course = s.update_step.isSome := by
  unfold stepIffUpdating
  exact beq_iff_eq

theorem P_update_flow (s : UserState) (t : Option String) (o : Oracle)
    (h : s.updating_course = s.update_step.isSome) :
    (handle_update_flow s t o).1.updating_course =
      (handle_update_flow s t o).1.update_step.isSome := by
  cases hu : s.updating_course with
  | false =>
    have hid : handle_update_flow s t o = (s, []) := by
      unfold handle_update_flow
      rw [hu]
      rfl
    rw [hid]
    exact h
  | true =>
    unfold handle_update_flow
    dsimp only
    rw [if_neg (show ¬((!s.updating_course) = true) from by rw [hu]; decide)]
    by_cases hc1 : isMenuMsg t = true
    · rw [if_pos hc1]
      rfl
    · rw [if_neg hc1]
      by_cases hc2 : (s.update_step == some "course_selection") = true
      · rw [if_pos hc2]
        by_cases hm2 : o.course_match ≠ "NO_MATCH"
        · rw [if_pos hm2]
          exact hu
        · rw [if_neg hm2]
          exact h
      · rw [if_neg hc2]
        by_cases hc3 : (s.update_step == some "content_input") = true
        · rw [if_pos hc3]
          by_cases he3 : (!optTruthy t || pyStrip (t.getD "") == "") = true
          · rw [if_pos he3]
            exact h
          · rw [if_neg he3]
            by_cases hm3 : (!(detect_inappropriate_content o.moderation).1) = true
            · rw [if_pos hm3]
              exact h
            · rw [if_neg hm3]
              exact hu
        · rw [if_neg hc3]
          by_cases hc4 : (s.update_step == some "category_confirmation") = true
          · rw [if_pos hc4]
            by_cases hn4 : t.isNone = true
            · rw [if_pos hn4]
              exact h
            · rw [if_neg hn4]
              by_cases ha4 : (["sí", "si", "yes", "y", "arí", "ari"].contains
                  (pyLower (t.getD ""))) = true
              · rw [if_pos ha4]
                exact hu
              · rw [if_neg ha4]
                exact hu
          · rw [if_neg hc4]
            by_cases hc5 : (s.update_step == some "category_input") = true
            · rw [if_pos hc5]
              by_cases hn5 : t.isNone = true
              · rw [if_pos hn5]
                exact h
              · rw [if_neg hn5]
                by_cases ha5 : (["EVALUACIÓN", "CLASE", "TAREA", "SÍLABO", "CRONOGRAMA",
                    "GENERAL"].contains (pyUpper (t.getD ""))) = true
                · rw [if_pos ha5]
                  exact hu
                · rw [if_neg ha5]
                  exact h
            · rw [if_neg hc5]
              by_cases hc6 : (s.update_step == some "ciclo_selection") = true
              · rw [if_pos hc6]
                by_cases hv6 : validate_ciclo (t.getD "") = true
                · rw [if_pos hv6]
                  exact hu
                · rw [if_neg hv6]
                  exact h
              · rw [if_neg hc6]
                by_cases hc7 : (s.update_step == some "section_selection") = true
                · rw [if_pos hc7]
                  by_cases hs7 : (optTruthy t && pyStrip (t.getD "") != "") = true
                  · rw [if_pos hs7]
                    exact hu
                  · rw [if_neg hs7]
                    exact h
                · rw [if_neg hc7]
                  by_cases hc8 : (s.update_step == some "modulo_selection") = true
                  · rw [if_pos hc8]
                    by_cases hm8 : o.module_match ≠ "NO_MATCH"
                    · rw [if_pos hm8]
                      by_cases hf8 : (updateFieldsPresent
                          { s with update_modulo := some o.module_match }) = true
                      · rw [if_pos hf8]
                        by_cases hk8 : o.commit_ok = true
                        · rw [if_pos hk8]
                          rfl
                        · rw [if_neg hk8]
                          exact h
                      · rw [if_neg hf8]
                        exact h
                    · rw [if_neg hm8]
                      exact h
                  · rw [if_neg hc8]
                    exact h

theorem P_query_chain (st : UserState) (t : Option String) (hd : Bool) (o : Oracle)
    (msgs : Messages) :
    (handle_language_step st t hd o msgs).1.updating_course = st.updating_course ∧
      (handle_language_step st t hd o msgs).1.update_step = st.update_step := by
  unfold handle_language_step handle_course_step handle_section_step handle_ciclo_step
    handle_modulo_step handle_doc_step handle_query_step
  split_ifs <;> exact ⟨rfl, rfl⟩

theorem P_message (st : UserState) (t : Option String) (hd : Bool) (o : Oracle)
    (h : st.updating_course = st.update_step.isSome) :
    (handle_message st t hd o).1.updating_course =
      (handle_message st t hd o).1.update_step.isSome := by
  unfold handle_message
  dsimp only
  split_ifs
  · rfl
  · exact h
  · exact P_update_flow st t o h
  · obtain ⟨e1, e2⟩ := P_query_chain st t hd o
      (get_translated_messages (st.language.getD "es"))
    rw [e1, e2]
    exact h
  · exact P_update_flow st t o h
  · obtain ⟨e1, e2⟩ := P_query_chain st t hd o
      (get_translated_messages (st.language.getD "es"))
    rw [e1, e2]
    exact h

theorem P_event (st : UserState) (e : Event)
    (h : st.updating_course = st.update_step.isSome) :
    (apply_event st e).1.updating_course = (apply_event st e).1.update_step.isSome := by
  cases e with
  | startCmd o =>
    unfold apply_event start_command
    dsimp only
    split_ifs <;> exact h
  | updateCmd o =>
    unfold apply_event update_command
    rfl
  | langSelect d o =>
    unfold apply_event language_callback
    exact h
  | message t hd o => exact P_message st t hd o h

/-- C3, amended: the half of the invariant the code keeps.  Every
reachable session state has `update_step` non-null exactly when
`updating_course` is set; exclusivity of the six mode flags does not hold
(see the counterexample). -/
theorem update_step_iff_updating_invariant (s : UserState) (h : Reachable s) :
    stepIffUpdating s = true := by
  induction h with
  | init => rfl
  | step s' e _ ih =>
    rw [stepIffUpdating_iff] at *
    exact P_event s' e ih

theorem update_step_iff_updating_witness :
    stepIffUpdating (apply_event create_initial_state (.updateCmd oracle0)).1 = true :=
  update_step_iff_updating_invariant _ (Reachable.step _ _ Reachable.init)

/-- C3, counterexample to the claim as stated: the state reached from the
initial state by the single message "menu" is reachable, yet has both
`waiting_for_language` (untouched by `reset_state`) and
`waiting_for_course` (forced on by it) set — two modes at once. -/
theorem mode_exclusivity_counterexample :
    ¬ (∀ s : UserState, Reachable s →
        atMostOneMode s = true ∧ stepIffUpdating s = true) := by
  intro h
  have hr : Reachable (apply_event create_initial_state
      (.message (some "menu") false oracle0)).1 :=
    Reachable.step _ _ Reachable.init
  have hmode := (h _ hr).1
  exact absurd hmode (by decide)

end CourseAssistant
